import Mathlib

/-!
Verification development for the Reddit bot-detection scoring engine
(`bot_detection/enhanced_bot_detector.py`).

Modelling conventions:
* Python floats are modelled as exact rationals (`ℚ`); float literals such as
  `1e-6`, `0.8`, `0.5` become the exact rationals `1/1000000`, `4/5`, `1/2`.
* `math.exp` / `np.exp` is modelled by a parameter `E : ℚ → ℚ` (the float
  exponential is itself a rational-valued function); theorems that need facts
  about it take them as explicit hypotheses (e.g. `0 < E x` and `E x ≤ 1`
  for `x ≤ 0`, which hold for the real exponential and for its correctly
  rounded float implementation).
* Python's `round(x, n)` (round-half-to-even on decimal digits) is modelled
  exactly by `pyRound`.
* Strings are `String` / `List Char`; only ASCII behaviour of `str.lower`,
  `str.strip`, `\w`, `\d`, `\s` and `str.isalpha` is modelled, matching the
  ASCII usernames and texts the detector handles.
-/

/-- Round-half-to-even to an integer, the rounding mode of Python's
built-in `round`. -/
def rheZ (x : ℚ) : ℤ :=
  if x - (⌊x⌋ : ℚ) < 1/2 then ⌊x⌋
  else if 1/2 < x - (⌊x⌋ : ℚ) then ⌊x⌋ + 1
  else if Even ⌊x⌋ then ⌊x⌋ else ⌊x⌋ + 1

/-- Python's `round(x, d)`: round half to even at `d` decimal digits. -/
def pyRound (d : ℕ) (x : ℚ) : ℚ := (rheZ (x * 10 ^ d) : ℚ) / 10 ^ d

theorem rheZ_ge_floor (x : ℚ) : ⌊x⌋ ≤ rheZ x := by
  unfold rheZ
  split
  · exact le_refl _
  · split
    · exact le_of_lt (lt_add_one _)
    · split
      · exact le_refl _
      · exact le_of_lt (lt_add_one _)

theorem rheZ_le_floor_add_one (x : ℚ) : rheZ x ≤ ⌊x⌋ + 1 := by
  unfold rheZ
  split
  · exact le_of_lt (lt_add_one _)
  · split
    · exact le_refl _
    · split
      · exact le_of_lt (lt_add_one _)
      · exact le_refl _

theorem rheZ_of_frac_lt {x : ℚ} (h : x - (⌊x⌋ : ℚ) < 1/2) : rheZ x = ⌊x⌋ := by
  unfold rheZ
  rw [if_pos h]

theorem rheZ_of_frac_gt {x : ℚ} (h : 1/2 < x - (⌊x⌋ : ℚ)) : rheZ x = ⌊x⌋ + 1 := by
  unfold rheZ
  rw [if_neg (lt_asymm h), if_pos h]

theorem rheZ_of_frac_eq {x : ℚ} (h : x - (⌊x⌋ : ℚ) = 1/2) :
    rheZ x = if Even ⌊x⌋ then ⌊x⌋ else ⌊x⌋ + 1 := by
  unfold rheZ
  rw [if_neg (by rw [h]; exact lt_irrefl _), if_neg (by rw [h]; exact lt_irrefl _)]

theorem rheZ_mono {x y : ℚ} (h : x ≤ y) : rheZ x ≤ rheZ y := by
  rcases lt_or_eq_of_le (Int.floor_le_floor h) with hf | hf
  · calc rheZ x ≤ ⌊x⌋ + 1 := rheZ_le_floor_add_one x
      _ ≤ ⌊y⌋ := by omega
      _ ≤ rheZ y := rheZ_ge_floor y
  · have hr : x - (⌊x⌋ : ℚ) ≤ y - (⌊y⌋ : ℚ) := by
      rw [hf]; linarith
    rcases lt_trichotomy (x - (⌊x⌋ : ℚ)) (1/2) with h1 | h1 | h1
    · rw [rheZ_of_frac_lt h1, hf]
      exact rheZ_ge_floor y
    · rcases lt_or_eq_of_le (h1 ▸ hr) with h2 | h2
      · rw [rheZ_of_frac_eq h1, rheZ_of_frac_gt h2, hf]
        split <;> omega
      · rw [rheZ_of_frac_eq h1, rheZ_of_frac_eq h2.symm, hf]
    · have h2 : 1/2 < y - (⌊y⌋ : ℚ) := lt_of_lt_of_le h1 hr
      rw [rheZ_of_frac_gt h1, rheZ_of_frac_gt h2, hf]

theorem rheZ_close (x : ℚ) : |(rheZ x : ℚ) - x| ≤ 1/2 := by
  have hf : (⌊x⌋ : ℚ) ≤ x := Int.floor_le x
  have hf2 : x < (⌊x⌋ : ℚ) + 1 := Int.lt_floor_add_one x
  rcases lt_trichotomy (x - (⌊x⌋ : ℚ)) (1/2) with h1 | h1 | h1
  · rw [rheZ_of_frac_lt h1, abs_le]
    constructor <;> linarith
  · rw [rheZ_of_frac_eq h1]
    split <;> (push_cast; rw [abs_le]; constructor <;> linarith)
  · rw [rheZ_of_frac_gt h1]
    push_cast
    rw [abs_le]
    constructor <;> linarith

theorem pyRound_mono (d : ℕ) {x y : ℚ} (h : x ≤ y) : pyRound d x ≤ pyRound d y := by
  unfold pyRound
  have hp : (0:ℚ) < 10 ^ d := by positivity
  apply div_le_div_of_nonneg_right _ (le_of_lt hp)
  exact_mod_cast rheZ_mono (by nlinarith)

theorem pyRound_close (d : ℕ) (x : ℚ) : |pyRound d x - x| ≤ 1 / (2 * 10 ^ d) := by
  have hp : (0:ℚ) < 10 ^ d := by positivity
  have h := rheZ_close (x * 10 ^ d)
  have heq : pyRound d x - x = ((rheZ (x * 10 ^ d) : ℚ) - x * 10 ^ d) / 10 ^ d := by
    unfold pyRound
    field_simp
    ring
  rw [heq, abs_div, abs_of_pos hp, div_le_div_iff₀ hp (by positivity)]
  calc |(rheZ (x * 10 ^ d) : ℚ) - x * 10 ^ d| * (2 * 10 ^ d)
      ≤ (1/2) * (2 * 10 ^ d) := mul_le_mul_of_nonneg_right h (by positivity)
    _ = 1 * 10 ^ d := by ring

theorem pyRound_int (d : ℕ) (n : ℤ) : pyRound d (n : ℚ) = n := by
  unfold pyRound
  have h1 : (n : ℚ) * 10 ^ d = ((n * 10 ^ d : ℤ) : ℚ) := by push_cast; ring
  rw [h1, rheZ_of_frac_lt (by rw [Int.floor_intCast]; norm_num)]
  rw [Int.floor_intCast]
  push_cast
  field_simp

/-! ### Classifier (`classify_bot_likelihood`) -/

/-- The record returned by `classify_bot_likelihood`. -/
structure Classification where
  classification : String
  confidence : String
  color : String
  description : String
  risk_level : String
deriving DecidableEq, Repr

def likelyHumanC : Classification :=
  ⟨"Likely Human", "High", "green", "Normal user behavior patterns detected", "Low"⟩

def possiblySuspiciousC : Classification :=
  ⟨"Possibly Suspicious", "Medium", "yellow", "Some bot-like characteristics detected", "Medium"⟩

def likelyBotC : Classification :=
  ⟨"Likely Bot", "Medium-High", "orange", "Multiple bot indicators present", "High"⟩

def almostCertainlyBotC : Classification :=
  ⟨"Almost Certainly Bot", "Very High", "red", "Strong bot behavior patterns detected", "Critical"⟩

/-- `classify_bot_likelihood(bot_score_100)`. -/
def classifyBotLikelihood (s : ℚ) : Classification :=
  if s < 30 then likelyHumanC
  else if s < 50 then possiblySuspiciousC
  else if s < 70 then likelyBotC
  else almostCertainlyBotC

/-! ### Text normalisation (`clean_text`) -/

/-- ASCII model of Python's `\s` class (space, tab, newline, carriage
return, form feed, vertical tab). -/
def isPySpace (c : Char) : Bool :=
  c = ' ' || c = '\t' || c = '\n' || c = '\x0d' || c = '\x0c' || c = '\x0b'

def isLowerAZ (c : Char) : Bool := 'a' ≤ c && c ≤ 'z'

def isUpperAZ (c : Char) : Bool := 'A' ≤ c && c ≤ 'Z'

def isDigit09 (c : Char) : Bool := '0' ≤ c && c ≤ '9'

/-- ASCII model of `str.lower`. -/
def lowerChar (c : Char) : Char :=
  if isUpperAZ c then Char.ofNat (c.toNat + 32) else c

/-- Length matched at the head of `l` by the regex alternation
`http\S+|www\S+` (0 when neither alternative matches here). -/
def urlMatchLen (l : List Char) : ℕ :=
  if l.take 4 = ['h', 't', 't', 'p'] && ((l.drop 4).takeWhile (fun c => !isPySpace c)).length ≥ 1 then
    4 + ((l.drop 4).takeWhile (fun c => !isPySpace c)).length
  else if l.take 3 = ['w', 'w', 'w'] && ((l.drop 3).takeWhile (fun c => !isPySpace c)).length ≥ 1 then
    3 + ((l.drop 3).takeWhile (fun c => !isPySpace c)).length
  else 0

/-- Worker for `stripUrls`; every step consumes at least one character,
so a fuel of the list length is always sufficient. -/
def stripUrlsGo : ℕ → List Char → List Char
  | 0, l => l
  | _ + 1, [] => []
  | fuel + 1, c :: rest =>
    if urlMatchLen (c :: rest) = 0 then c :: stripUrlsGo fuel rest
    else stripUrlsGo fuel ((c :: rest).drop (urlMatchLen (c :: rest)))

/-- `re.sub(r'http\S+|www\S+', '', text)`: delete non-overlapping
leftmost matches. -/
def stripUrls (l : List Char) : List Char := stripUrlsGo l.length l

/-- `clean_text`: lowercase, strip URL-ish tokens, keep only `[a-z0-9\s]`,
collapse whitespace runs to single spaces and trim.  The final two regex
steps (`re.sub(r'\s+', ' ', t).strip()`) amount to joining the whitespace
separated words with single spaces. -/
def cleanText (s : List Char) : List Char :=
  let lowered := s.map lowerChar
  let noUrl := stripUrls lowered
  let kept := noUrl.filter (fun c => isLowerAZ c || isDigit09 c || isPySpace c)
  List.intercalate [' '] ((kept.splitOnP isPySpace).filter (fun w => !w.isEmpty))

/-! ### `difflib.SequenceMatcher` (as called: `SequenceMatcher(None, a, b)`,
so no junk predicate; the default `autojunk` popularity filter applies to
the second sequence when it has at least 200 elements). -/

/-- Ascending list of positions of `c` in `b` (difflib's `b2j[c]`). -/
def b2jPositions (c : Char) (b : List Char) : List ℕ :=
  ((List.range b.length).filter (fun j => b.getD j ' ' = c))

/-- `b2j` lookup after the autojunk "popular element" filter. -/
def b2jGet (c : Char) (b : List Char) : List ℕ :=
  let ps := b2jPositions c b
  if b.length ≥ 200 && ps.length > b.length / 100 + 1 then [] else ps

/-- Lookup in the `j2len` association list, defaulting to 0. -/
def j2lenGet (m : List (ℕ × ℕ)) (j : ℕ) : ℕ :=
  ((m.find? (fun p => p.1 == j)).map (fun p => p.2)).getD 0

/-- One row (`for j in b2j[a[i]]`) of `find_longest_match`'s dynamic
programming loop.  `js` is already restricted to `[blo, bhi)`.  The
accumulator carries (`newj2len`, best `(i', j', size)`). -/
def flmRow (j2len : List (ℕ × ℕ)) (best : ℕ × ℕ × ℕ) (i : ℕ) (js : List ℕ) :
    List (ℕ × ℕ) × (ℕ × ℕ × ℕ) :=
  js.foldl
    (fun acc j =>
      let k := (if j = 0 then 0 else j2lenGet j2len (j - 1)) + 1
      let best' := if k > acc.2.2.2 then (i + 1 - k, j + 1 - k, k) else acc.2
      ((j, k) :: acc.1, best'))
    ([], best)

/-- The dynamic-programming part of `find_longest_match` over the window
`[alo, ahi) × [blo, bhi)`. -/
def flmDP (a b : List Char) (alo ahi blo bhi : ℕ) : ℕ × ℕ × ℕ :=
  ((List.range' alo (ahi - alo)).foldl
    (fun (acc : List (ℕ × ℕ) × (ℕ × ℕ × ℕ)) i =>
      let js := (b2jGet (a.getD i ' ') b).filter (fun j => blo ≤ j && j < bhi)
      flmRow acc.1 acc.2 i js)
    ([], (alo, blo, 0))).2

/-- The first extension loop of `find_longest_match` (extend the best
block to the left over equal characters; the junk variants are no-ops
because the junk set is empty). -/
def flmExtendBack (a b : List Char) (alo blo : ℕ) :
    ℕ → ℕ → ℕ → ℕ → ℕ × ℕ × ℕ
  | 0, besti, bestj, bestsize => (besti, bestj, bestsize)
  | fuel + 1, besti, bestj, bestsize =>
    if alo < besti && blo < bestj &&
        a.getD (besti - 1) ' ' = b.getD (bestj - 1) ' ' then
      flmExtendBack a b alo blo fuel (besti - 1) (bestj - 1) (bestsize + 1)
    else (besti, bestj, bestsize)

/-- The second extension loop (extend to the right over equal
characters). -/
def flmExtendFwd (a b : List Char) (ahi bhi : ℕ) :
    ℕ → ℕ → ℕ → ℕ → ℕ × ℕ × ℕ
  | 0, besti, bestj, bestsize => (besti, bestj, bestsize)
  | fuel + 1, besti, bestj, bestsize =>
    if besti + bestsize < ahi && bestj + bestsize < bhi &&
        a.getD (besti + bestsize) ' ' = b.getD (bestj + bestsize) ' ' then
      flmExtendFwd a b ahi bhi fuel besti bestj (bestsize + 1)
    else (besti, bestj, bestsize)

/-- `find_longest_match(alo, ahi, blo, bhi)`.  The backward loop runs at
most `besti` times and the forward loop at most `ahi` times, so those
bounds serve as fuel. -/
def findLongestMatch (a b : List Char) (alo ahi blo bhi : ℕ) : ℕ × ℕ × ℕ :=
  let d := flmDP a b alo ahi blo bhi
  let e := flmExtendBack a b alo blo d.1 d.1 d.2.1 d.2.2
  flmExtendFwd a b ahi bhi ahi e.1 e.2.1 e.2.2

/-- Total size of the matching blocks found by the recursive subdivision
of `get_matching_blocks` (the queue in difflib visits exactly these
subwindows; the trailing merge step does not change the total size).
Each recursive call strictly shrinks the window, so a fuel of
`ahi + bhi + 1` is enough for the fuel never to run out. -/
def matchedTotal (a b : List Char) : ℕ → ℕ → ℕ → ℕ → ℕ → ℕ
  | 0, _, _, _, _ => 0
  | fuel + 1, alo, ahi, blo, bhi =>
    let m := findLongestMatch a b alo ahi blo bhi
    if m.2.2 = 0 then 0
    else
      matchedTotal a b fuel alo m.1 blo m.2.1 + m.2.2 +
        matchedTotal a b fuel (m.1 + m.2.2) ahi (m.2.1 + m.2.2) bhi

/-- `SequenceMatcher(None, a, b).ratio()`: `2 * M / (len(a) + len(b))`,
and 1.0 when both sequences are empty.  The exact value of the quotient
is written with `mkRat`. -/
def smRatioVal (a b : List Char) : ℚ :=
  if a.length + b.length = 0 then 1
  else
    mkRat (2 * matchedTotal a b (a.length + b.length + 1) 0 a.length 0 b.length)
      (a.length + b.length)

/-! ### Near-duplicate detector (`get_duplicate_content_ratio`) -/

/-- All unordered index pairs `(i, j)` with `i < j`, in the order the
Python double loop visits them, materialised as element pairs. -/
def allPairs {α : Type} : List α → List (α × α)
  | [] => []
  | x :: xs => xs.map (fun y => (x, y)) ++ allPairs xs

/-- The raw filter of `get_duplicate_content_ratio`: an item contributes
iff it is a dict containing the content key (modelled by `some`) whose
text is truthy and has a non-whitespace character (`text and
text.strip()`). -/
def rawTextKeep : Option String → Bool
  | none => false
  | some t => t.data.any (fun c => !isPySpace c)

/-- The duplicate-pair test of the double loop: `sim > 0.8`. -/
def dupPairB (p : List Char × List Char) : Bool :=
  decide (smRatioVal p.1 p.2 > mkRat 4 5)

/-- The per-item step of `get_duplicate_content_ratio`'s collection
loop: items passing `rawTextKeep` contribute their cleaned text. -/
def dupKeptText : Option String → Option (List Char)
  | none => none
  | some t => if t.data.any (fun c => !isPySpace c) then some (cleanText t.data) else none

/-- `get_duplicate_content_ratio(items, content_key)`.  `none` models an
item that is not a dict or lacks the content key. -/
def getDuplicateContentRatioQ (items : List (Option String)) : ℚ :=
  let texts := items.filterMap dupKeptText
  if texts.length < 3 then 0
  else
    let prs := allPairs texts
    let dup := prs.countP dupPairB
    mkRat dup (max prs.length 1)

/-! ### Activity record (the data `fetch_user_data` assembles) -/

structure PostR where
  created_utc : ℚ
  subreddit : String
  score : ℤ
  title : String
  selftext : String
deriving DecidableEq, Repr

structure CommentR where
  created_utc : ℚ
  subreddit : String
  score : ℤ
  body : String
deriving DecidableEq, Repr

structure UserData where
  username : String
  created_utc : ℚ
  link_karma : ℤ
  comment_karma : ℤ
  is_verified : Bool
  posts : List PostR
  comments : List CommentR
deriving DecidableEq, Repr

/-! ### Username pattern heuristics (the three `re.match` checks) -/

/-- ASCII model of Python's `\w` (word character). -/
def isWordChar (c : Char) : Bool :=
  isLowerAZ c || isUpperAZ c || isDigit09 c || c = '_'

/-- ASCII model of `str.isalpha`: nonempty and all alphabetic. -/
def pyIsAlpha (s : List Char) : Bool :=
  !s.isEmpty && s.all (fun c => isLowerAZ c || isUpperAZ c)

/-- Full match of `^\w+_\w+\d{4}$`.  Because `\w` contains `_` and the
final `\d{4}` is fixed length, the regex (with backtracking) matches
exactly when the last four characters are digits and the remaining
prefix consists of word characters with an underscore at some interior
position. -/
def matchWordUnderscoreWord4 (s : List Char) : Bool :=
  let n := s.length
  n ≥ 7 && (s.drop (n - 4)).all isDigit09 &&
    (s.take (n - 4)).all isWordChar &&
    (List.range (n - 4)).any (fun i => 1 ≤ i && i + 1 < n - 4 && s.getD i ' ' = '_')

/-- Full match of `^[a-z]{8,}\d{4,}$` (applied to the lowercased
username).  Letters and digits are disjoint, so the match is exactly:
a maximal lowercase-letter prefix of length at least 8 followed by a
nonempty all-digit suffix of length at least 4. -/
def matchLower8Digits4 (s : List Char) : Bool :=
  let lpre := s.takeWhile isLowerAZ
  let rest := s.drop lpre.length
  lpre.length ≥ 8 && rest.length ≥ 4 && !rest.isEmpty && rest.all isDigit09

/-- The `username_suspicious` heuristic of `compute_features`. -/
def usernameSuspicious (username : String) : ℚ :=
  if matchWordUnderscoreWord4 username.data then 1/2
  else if matchLower8Digits4 (username.data.map lowerChar) then 7/10
  else if username.data.length > 20 ∨
      (username.data.length < 4 ∧ ¬ pyIsAlpha username.data = true) then 3/10
  else 0

/-! ### Feature extraction (`compute_features`) -/

/-- The dictionary returned by `compute_features`.  In the source the
`total_posts` entry of the returned dict is `len(posts)` while the local
variable `total_posts` used in the ratios is `len(posts)+len(comments)`;
the structure stores the returned entries. -/
structure FeatureSet where
  age_score : ℚ
  age_days : ℚ
  comment_to_post_score : ℚ
  subreddit_diversity_score : ℚ
  subreddit_count : ℕ
  activity_spike_score : ℚ
  post_to_karma_score : ℚ
  duplicate_content_score : ℚ
  posts_per_day_score : ℚ
  username_suspicious_score : ℚ
  low_karma_score : ℚ
  verification_penalty : ℚ
  total_posts : ℕ
  total_comments : ℕ
  total_karma : ℤ
  avg_karma_per_post : ℚ
deriving DecidableEq, Repr

/-- `sorted([x["created_utc"] for x in posts + comments])`. -/
def timesOf (d : UserData) : List ℚ :=
  List.insertionSort (· ≤ ·) (d.posts.map (fun p => p.created_utc) ++ d.comments.map (fun c => c.created_utc))

/-- `np.diff(times)`. -/
def deltasOf (d : UserData) : List ℚ :=
  ((timesOf d).zip (timesOf d).tail).map (fun p => p.2 - p.1)

/-- `np.mean(deltas)` (only consulted when there are more than 5
events, hence at least 5 gaps). -/
def meanGapOf (d : UserData) : ℚ :=
  (deltasOf d).sum / ((deltasOf d).length : ℚ)

/-- The `np.any((deltas[:-1] > mean*5) & (deltas[1:] < mean/5))` burst
test. -/
def spikeSignal (d : UserData) : Bool :=
  ((deltasOf d).zip (deltasOf d).tail).any
    (fun p => decide (p.1 > meanGapOf d * 5) && decide (p.2 < meanGapOf d / 5))

/-- `compute_features(user_data)`.  `E` models `np.exp`; `now` models the
single `time.time()` read. -/
def computeFeatures (E : ℚ → ℚ) (d : UserData) (now : ℚ) : FeatureSet :=
  let age_days : ℚ := (now - d.created_utc) / (60 * 60 * 24)
  let cToP : ℚ := (d.comments.length : ℚ) / ((d.posts.length : ℚ) + 1/1000000)
  let subs := d.posts.map (fun p => p.subreddit) ++ d.comments.map (fun c => c.subreddit)
  let subCount := subs.dedup.length
  let totalItems := d.posts.length + d.comments.length
  let totalKarma := d.link_karma + d.comment_karma
  let postToKarma : ℚ := (totalItems : ℚ) / ((totalKarma : ℚ) + 1/1000000)
  let commentDupe := getDuplicateContentRatioQ (d.comments.map (fun c => some c.body))
  let postDupe := getDuplicateContentRatioQ (d.posts.map (fun p => some p.title))
  let postsPerDay : ℚ := (totalItems : ℚ) / max age_days 1
  let avgKarma : ℚ := (totalKarma : ℚ) / ((max totalItems 1 : ℕ) : ℚ)
  { age_score := E (-age_days / 180)
    age_days := age_days
    comment_to_post_score := if cToP < 1 then 1 - min 1 cToP else 0
    subreddit_diversity_score := 1 - min ((subCount : ℚ) / 10) 1
    subreddit_count := subCount
    activity_spike_score :=
      if 5 < (timesOf d).length then
        if 0 < meanGapOf d then
          if spikeSignal d then 1 else 0
        else 0
      else 0
    post_to_karma_score := min (postToKarma * 10) 1
    duplicate_content_score := max commentDupe postDupe
    posts_per_day_score := min (postsPerDay / 20) 1
    username_suspicious_score := usernameSuspicious d.username
    low_karma_score := if avgKarma < 2 then 1 else 0
    verification_penalty := if d.is_verified then 0 else 1/5
    total_posts := d.posts.length
    total_comments := d.comments.length
    total_karma := totalKarma
    avg_karma_per_post := avgKarma }

/-! ### Composite scorer (`compute_bot_score_100_enhanced`) -/

/-- The `breakdown` dict. -/
structure Breakdown where
  account_age_penalty : ℚ
  activity_pattern_penalty : ℚ
  content_quality_penalty : ℚ
  engagement_penalty : ℚ
  diversity_penalty : ℚ
  verification_penalty : ℚ
deriving DecidableEq, Repr

/-- The age bucket: `20 * min(1.0, math.exp(-age_days / 90))`. -/
def agePenaltyOf (E : ℚ → ℚ) (f : FeatureSet) : ℚ :=
  20 * min 1 (E (-f.age_days / 90))

/-- The raw activity bucket before its 20-point cap. -/
def activityRawOf (f : FeatureSet) : ℚ :=
  (if f.activity_spike_score > 0 then (10 : ℚ) else 0) +
    (if f.posts_per_day_score > 1/2 then 10 * f.posts_per_day_score else 0) +
    5 * f.username_suspicious_score

/-- The raw content bucket before its 20-point cap. -/
def contentRawOf (f : FeatureSet) : ℚ :=
  15 * f.duplicate_content_score + 5 * f.low_karma_score

/-- The engagement bucket: `20 * min(post_to_karma_score * 2, 1.0)`. -/
def engagementOf (f : FeatureSet) : ℚ :=
  20 * min (f.post_to_karma_score * 2) 1

/-- The raw diversity bucket before its 20-point cap. -/
def diversityRawOf (f : FeatureSet) : ℚ :=
  15 * f.subreddit_diversity_score + 5 * f.comment_to_post_score

/-- The running `total_score` just before clamping. -/
def totalPreOf (E : ℚ → ℚ) (f : FeatureSet) : ℚ :=
  agePenaltyOf E f + min (activityRawOf f) 20 + min (contentRawOf f) 20 +
    engagementOf f + min (diversityRawOf f) 20 + f.verification_penalty * 5

/-- `compute_bot_score_100_enhanced(features)`: the clamped, rounded
score together with the rounded per-component breakdown. -/
def computeBotScore100Enhanced (E : ℚ → ℚ) (f : FeatureSet) : ℚ × Breakdown :=
  (pyRound 2 (min (totalPreOf E f) 100),
    { account_age_penalty := pyRound 2 (agePenaltyOf E f)
      activity_pattern_penalty := pyRound 2 (min (activityRawOf f) 20)
      content_quality_penalty := pyRound 2 (min (contentRawOf f) 20)
      engagement_penalty := pyRound 2 (engagementOf f)
      diversity_penalty := pyRound 2 (min (diversityRawOf f) 20)
      verification_penalty := pyRound 2 (f.verification_penalty * 5) })

/-- Sum of the six reported breakdown components. -/
def breakdownSum (b : Breakdown) : ℚ :=
  b.account_age_penalty + b.activity_pattern_penalty + b.content_quality_penalty +
    b.engagement_penalty + b.diversity_penalty + b.verification_penalty

/-! ### Red flags and recommendations -/

/-- One red-flag sentence of `generate_red_flags`.  Each constructor
carries the rounded numeric payload interpolated into the Python
f-string; the sentence templates themselves are fixed text. -/
inductive RedFlag where
  | veryNewAccount (ageDaysRounded : ℚ)
  | limitedSubreddits (subredditCount : ℕ)
  | activitySpikes
  | highDuplicateContent (pctRounded : ℚ)
  | highPostingFrequency (postsPerDayRounded : ℚ)
  | lowEngagement (avgKarmaRounded : ℚ)
  | autoGeneratedUsername
  | noMajorRedFlags
deriving DecidableEq, Repr

/-- `generate_red_flags(features, bot_score)` (the score argument is
unused in the source body). -/
def generateRedFlags (f : FeatureSet) (_botScore : ℚ) : List RedFlag :=
  let flags :=
    (if f.age_days < 90 then [RedFlag.veryNewAccount (pyRound 1 f.age_days)] else []) ++
    (if f.subreddit_count < 3 then [RedFlag.limitedSubreddits f.subreddit_count] else []) ++
    (if f.activity_spike_score > 0 then [RedFlag.activitySpikes] else []) ++
    (if f.duplicate_content_score > 3/10 then
      [RedFlag.highDuplicateContent (pyRound 1 (f.duplicate_content_score * 100))] else []) ++
    (if f.posts_per_day_score > 7/10 then
      [RedFlag.highPostingFrequency (pyRound 1 ((f.total_posts : ℚ) / max f.age_days 1))] else []) ++
    (if f.avg_karma_per_post < 2 then [RedFlag.lowEngagement (pyRound 2 f.avg_karma_per_post)] else []) ++
    (if f.username_suspicious_score > 1/2 then [RedFlag.autoGeneratedUsername] else [])
  if flags.isEmpty then [RedFlag.noMajorRedFlags] else flags

/-- `generate_recommendations(bot_score, features)` (features unused). -/
def generateRecommendations (botScore : ℚ) : String :=
  if botScore < 30 then "Account appears legitimate. No action needed."
  else if botScore < 50 then "Monitor account activity. Consider manual review if behavior persists."
  else if botScore < 70 then "High probability of bot activity. Recommend flagging for review and possible restrictions."
  else "Very high probability of bot activity. Immediate action recommended: ban or severe restrictions."

/-! ### Single-account analysis (`analyze_user_comprehensive`) -/

/-- The `account_info` sub-dict of the success result. -/
structure AccountInfo where
  account_age_days : ℚ
  total_posts : ℕ
  total_comments : ℕ
  total_karma : ℤ
  subreddit_count : ℕ
  avg_karma_per_post : ℚ
  posts_per_day : ℚ
deriving DecidableEq, Repr

/-- The success payload of `analyze_user_comprehensive` (the
`analyzed_at` wall-clock stamp is presentation metadata and not part of
the derived result). -/
structure SuccessData where
  username : String
  bot_score : ℚ
  classification : String
  confidence : String
  risk_level : String
  description : String
  breakdown : Breakdown
  account_info : AccountInfo
  red_flags : List RedFlag
  recommendations : String
deriving DecidableEq, Repr

/-- Result of one account's analysis: either the full classification or
the explicit `{username, error, bot_score: None, classification:
"Error"}` record produced by the `except` branch. -/
inductive AnalysisResult where
  | success (data : SuccessData)
  | failure (username : String) (error : String)
deriving DecidableEq, Repr

/-- The `bot_score` entry of a result dict (`None` on failure). -/
def botScoreOf : AnalysisResult → Option ℚ
  | AnalysisResult.success r => some r.bot_score
  | AnalysisResult.failure _ _ => none

/-- `analyze_user_comprehensive(username)`.  The upstream fetch
(`fetch_user_data`, a network call) is modelled as an `Except` input:
`Except.error e` is a fetch that raised, which the `except` branch turns
into the explicit error record. -/
def analyzeUserComprehensive (E : ℚ → ℚ) (username : String)
    (fetched : Except String UserData) (now : ℚ) : AnalysisResult :=
  match fetched with
  | Except.error e => AnalysisResult.failure username e
  | Except.ok d =>
    let f := computeFeatures E d now
    let sb := computeBotScore100Enhanced E f
    let c := classifyBotLikelihood sb.1
    AnalysisResult.success
      { username := username
        bot_score := sb.1
        classification := c.classification
        confidence := c.confidence
        risk_level := c.risk_level
        description := c.description
        breakdown := sb.2
        account_info :=
          { account_age_days := pyRound 1 f.age_days
            total_posts := f.total_posts
            total_comments := f.total_comments
            total_karma := f.total_karma
            subreddit_count := f.subreddit_count
            avg_karma_per_post := pyRound 2 f.avg_karma_per_post
            posts_per_day := pyRound 2 ((f.total_posts : ℚ) / max f.age_days 1) }
        red_flags := generateRedFlags f sb.1
        recommendations := generateRecommendations sb.1 }

/-! ### Batch analysis (`analyze_multiple_users`) -/

/-- `np.mean` on a list of floats. -/
def npMean (l : List ℚ) : ℚ := l.sum / (l.length : ℚ)

/-- `np.median`: middle element of the sorted list, or the mean of the
two middles for even length. -/
def npMedian (l : List ℚ) : ℚ :=
  let s := List.insertionSort (· ≤ ·) l
  if l.length % 2 = 1 then s.getD (l.length / 2) 0
  else (s.getD (l.length / 2 - 1) 0 + s.getD (l.length / 2) 0) / 2

/-- Python's builtin `min` over a nonempty list. -/
def listMinQ : List ℚ → ℚ
  | [] => 0
  | x :: xs => xs.foldl min x

/-- Python's builtin `max` over a nonempty list. -/
def listMaxQ : List ℚ → ℚ
  | [] => 0
  | x :: xs => xs.foldl max x

/-- The `stats` dict of `analyze_multiple_users`. -/
structure BatchStats where
  total_analyzed : ℕ
  successful_analyses : ℕ
  failed_analyses : ℕ
  average_bot_score : ℚ
  median_bot_score : ℚ
  min_bot_score : ℚ
  max_bot_score : ℚ
  likely_humans : ℕ
  suspicious : ℕ
  likely_bots : ℕ
  almost_certain_bots : ℕ
deriving DecidableEq, Repr

/-- The batch output: the per-account results, plus the stats block that
is only produced when `valid_scores` is nonempty (otherwise the source
returns just `{"results": results}`). -/
structure BatchOutput where
  results : List AnalysisResult
  statistics : Option BatchStats
deriving DecidableEq, Repr

/-- `analyze_multiple_users(usernames)`.  Each requested username comes
paired with the outcome of its fetch. -/
def analyzeMultipleUsers (E : ℚ → ℚ) (inputs : List (String × Except String UserData))
    (now : ℚ) : BatchOutput :=
  let results := inputs.map (fun p => analyzeUserComprehensive E p.1 p.2 now)
  let validScores := results.filterMap botScoreOf
  { results := results
    statistics :=
      if validScores.isEmpty then none
      else some
        { total_analyzed := inputs.length
          successful_analyses := validScores.length
          failed_analyses := inputs.length - validScores.length
          average_bot_score := pyRound 2 (npMean validScores)
          median_bot_score := pyRound 2 (npMedian validScores)
          min_bot_score := pyRound 2 (listMinQ validScores)
          max_bot_score := pyRound 2 (listMaxQ validScores)
          likely_humans := validScores.countP (fun s => decide (s < 30))
          suspicious := validScores.countP (fun s => decide (30 ≤ s ∧ s < 50))
          likely_bots := validScores.countP (fun s => decide (50 ≤ s ∧ s < 70))
          almost_certain_bots := validScores.countP (fun s => decide (70 ≤ s)) } }

/-! ### Helper lemmas -/

theorem classify_of_lt30 {s : ℚ} (h : s < 30) : classifyBotLikelihood s = likelyHumanC := by
  unfold classifyBotLikelihood
  rw [if_pos h]

theorem classify_of_30_50 {s : ℚ} (h1 : 30 ≤ s) (h2 : s < 50) :
    classifyBotLikelihood s = possiblySuspiciousC := by
  unfold classifyBotLikelihood
  rw [if_neg (not_lt.mpr h1), if_pos h2]

theorem classify_of_50_70 {s : ℚ} (h1 : 50 ≤ s) (h2 : s < 70) :
    classifyBotLikelihood s = likelyBotC := by
  unfold classifyBotLikelihood
  rw [if_neg (not_lt.mpr (by linarith)), if_neg (not_lt.mpr h1), if_pos h2]

theorem classify_of_ge70 {s : ℚ} (h : 70 ≤ s) : classifyBotLikelihood s = almostCertainlyBotC := by
  unfold classifyBotLikelihood
  rw [if_neg (not_lt.mpr (by linarith)), if_neg (not_lt.mpr (by linarith)),
    if_neg (not_lt.mpr h)]

theorem classification_constants_distinct :
    likelyHumanC ≠ possiblySuspiciousC ∧ likelyHumanC ≠ likelyBotC ∧
    likelyHumanC ≠ almostCertainlyBotC ∧ possiblySuspiciousC ≠ likelyBotC ∧
    possiblySuspiciousC ≠ almostCertainlyBotC ∧ likelyBotC ≠ almostCertainlyBotC := by
  refine ⟨?_, ?_, ?_, ?_, ?_, ?_⟩ <;> decide

/-! ### Claim C2 -/

/-- C2: the classifier's bins are contiguous and exhaustive: every score
in [0,100] maps to exactly one of the four categories, with [0,30) to
Likely Human/Low, [30,50) to Possibly Suspicious/Medium, [50,70) to
Likely Bot/High and [70,100] to Almost Certainly Bot/Critical; the
boundary scores 30, 50, 70 land in the upper bin. -/
theorem claim2_classifier_bins (s : ℚ) (_h0 : 0 ≤ s) (_h100 : s ≤ 100) :
    (classifyBotLikelihood s = likelyHumanC ↔ s < 30) ∧
    (classifyBotLikelihood s = possiblySuspiciousC ↔ 30 ≤ s ∧ s < 50) ∧
    (classifyBotLikelihood s = likelyBotC ↔ 50 ≤ s ∧ s < 70) ∧
    (classifyBotLikelihood s = almostCertainlyBotC ↔ 70 ≤ s) ∧
    classifyBotLikelihood 30 = possiblySuspiciousC ∧
    classifyBotLikelihood 50 = likelyBotC ∧
    classifyBotLikelihood 70 = almostCertainlyBotC ∧
    likelyHumanC ≠ possiblySuspiciousC ∧ likelyHumanC ≠ likelyBotC ∧
    likelyHumanC ≠ almostCertainlyBotC ∧ possiblySuspiciousC ≠ likelyBotC ∧
    possiblySuspiciousC ≠ almostCertainlyBotC ∧ likelyBotC ≠ almostCertainlyBotC := by
  obtain ⟨d1, d2, d3, d4, d5, d6⟩ := classification_constants_distinct
  have key : ∀ t : ℚ,
      (classifyBotLikelihood t = likelyHumanC ↔ t < 30) ∧
      (classifyBotLikelihood t = possiblySuspiciousC ↔ 30 ≤ t ∧ t < 50) ∧
      (classifyBotLikelihood t = likelyBotC ↔ 50 ≤ t ∧ t < 70) ∧
      (classifyBotLikelihood t = almostCertainlyBotC ↔ 70 ≤ t) := by
    intro t
    rcases lt_or_le t 30 with h1 | h1
    · rw [classify_of_lt30 h1]
      exact ⟨⟨fun _ => h1, fun _ => rfl⟩,
        ⟨fun heq => absurd heq d1, fun hc => absurd h1 (not_lt.mpr hc.1)⟩,
        ⟨fun heq => absurd heq d2, fun hc => absurd h1 (not_lt.mpr (by linarith [hc.1]))⟩,
        ⟨fun heq => absurd heq d3, fun hc => absurd h1 (not_lt.mpr (by linarith))⟩⟩
    · rcases lt_or_le t 50 with h2 | h2
      · rw [classify_of_30_50 h1 h2]
        exact ⟨⟨fun heq => absurd heq.symm d1, fun hc => absurd hc (not_lt.mpr h1)⟩,
          ⟨fun _ => ⟨h1, h2⟩, fun _ => rfl⟩,
          ⟨fun heq => absurd heq d4, fun hc => absurd h2 (not_lt.mpr hc.1)⟩,
          ⟨fun heq => absurd heq d5, fun hc => absurd h2 (not_lt.mpr (by linarith))⟩⟩
      · rcases lt_or_le t 70 with h3 | h3
        · rw [classify_of_50_70 h2 h3]
          exact ⟨⟨fun heq => absurd heq.symm d2, fun hc => absurd hc (not_lt.mpr (by linarith))⟩,
            ⟨fun heq => absurd heq.symm d4, fun hc => absurd hc.2 (not_lt.mpr h2)⟩,
            ⟨fun _ => ⟨h2, h3⟩, fun _ => rfl⟩,
            ⟨fun heq => absurd heq d6, fun hc => absurd h3 (not_lt.mpr hc)⟩⟩
        · rw [classify_of_ge70 h3]
          exact ⟨⟨fun heq => absurd heq.symm d3, fun hc => absurd hc (not_lt.mpr (by linarith))⟩,
            ⟨fun heq => absurd heq.symm d5, fun hc => absurd hc.2 (not_lt.mpr (by linarith))⟩,
            ⟨fun heq => absurd heq.symm d6, fun hc => absurd hc.2 (not_lt.mpr h3)⟩,
            ⟨fun _ => h3, fun _ => rfl⟩⟩
  exact ⟨(key s).1, (key s).2.1, (key s).2.2.1, (key s).2.2.2,
    classify_of_30_50 (by norm_num) (by norm_num),
    classify_of_50_70 (by norm_num) (by norm_num),
    classify_of_ge70 (by norm_num),
    d1, d2, d3, d4, d5, d6⟩

/-- Witness for C2 at the boundary score 30. -/
theorem claim2_witness :
    (0 : ℚ) ≤ 30 ∧ (30 : ℚ) ≤ 100 ∧ classifyBotLikelihood 30 = possiblySuspiciousC :=
  ⟨by norm_num, by norm_num,
    ((claim2_classifier_bins 30 (by norm_num) (by norm_num)).2.1).mpr ⟨le_refl _, by norm_num⟩⟩

/-! ### Claim C10 -/

/-- C10 (implicit): `classify_bot_likelihood` is total over all numeric
scores, not just [0,100]: every score below 30 (negative included) yields
Likely Human/Low risk, every score at or above 70 (above 100 included)
yields Almost Certainly Bot/Critical, and every score yields one of the
four fixed records. -/
theorem claim10_classifier_total (s : ℚ) :
    (s < 30 → classifyBotLikelihood s = likelyHumanC) ∧
    (70 ≤ s → classifyBotLikelihood s = almostCertainlyBotC) ∧
    (classifyBotLikelihood s = likelyHumanC ∨ classifyBotLikelihood s = possiblySuspiciousC ∨
      classifyBotLikelihood s = likelyBotC ∨ classifyBotLikelihood s = almostCertainlyBotC) := by
  refine ⟨fun h => classify_of_lt30 h, fun h => classify_of_ge70 h, ?_⟩
  rcases lt_or_le s 30 with h1 | h1
  · exact Or.inl (classify_of_lt30 h1)
  · rcases lt_or_le s 50 with h2 | h2
    · exact Or.inr (Or.inl (classify_of_30_50 h1 h2))
    · rcases lt_or_le s 70 with h3 | h3
      · exact Or.inr (Or.inr (Or.inl (classify_of_50_70 h2 h3)))
      · exact Or.inr (Or.inr (Or.inr (classify_of_ge70 h3)))

/-- Witness for C10 at the out-of-range scores -5 and 150. -/
theorem claim10_witness :
    ((-5 : ℚ) < 30 ∧ classifyBotLikelihood (-5) = likelyHumanC) ∧
    ((70 : ℚ) ≤ 150 ∧ classifyBotLikelihood 150 = almostCertainlyBotC) :=
  ⟨⟨by norm_num, (claim10_classifier_total (-5)).1 (by norm_num)⟩,
    ⟨by norm_num, (claim10_classifier_total 150).2.1 (by norm_num)⟩⟩

/-! ### Claim C9 -/

theorem timesOf_length (d : UserData) :
    (timesOf d).length = d.posts.length + d.comments.length := by
  unfold timesOf
  rw [List.length_insertionSort, List.length_append, List.length_map, List.length_map]

/-- C9: with at most 5 timestamped events, or a zero mean inter-event
gap, the `activity_spike_score` feature is exactly 0; the spike
computation's guards return the neutral value instead of raising. -/
theorem claim9_spike_guards (E : ℚ → ℚ) (d : UserData) (now : ℚ)
    (h : d.posts.length + d.comments.length ≤ 5 ∨ meanGapOf d = 0) :
    (computeFeatures E d now).activity_spike_score = 0 := by
  show (if 5 < (timesOf d).length then
      if 0 < meanGapOf d then (if spikeSignal d then (1:ℚ) else 0) else 0
    else 0) = 0
  rcases h with h | h
  · rw [if_neg (by rw [timesOf_length]; omega)]
  · by_cases hl : 5 < (timesOf d).length
    · rw [if_pos hl, if_neg (by rw [h]; exact lt_irrefl 0)]
    · rw [if_neg hl]

/-- Witness for C9: a record with two same-instant comments (2 events,
mean gap 0). -/
theorem claim9_witness :
    (let d : UserData :=
      { username := "bob", created_utc := 0, link_karma := 3, comment_karma := 4,
        is_verified := true,
        posts := [],
        comments := [⟨100, "news", 1, "hi"⟩, ⟨100, "news", 1, "yo"⟩] }
     d.posts.length + d.comments.length ≤ 5 ∧
       (computeFeatures (fun _ => 1) d 1000).activity_spike_score = 0) :=
  ⟨by decide, claim9_spike_guards (fun _ => 1) _ 1000 (Or.inl (by decide))⟩

/-! ### Claim C5 -/

/-- C5: the engine is deterministic: on equal activity records and equal
injected clock readings, the analysis produces identical results (score,
breakdown, classification fields, account info, red flags and
recommendation).  The single `time.time()` read of `compute_features` is
the `now` parameter; the `analyzed_at` wall-clock stamp is metadata
outside the derived result. -/
theorem claim5_deterministic (E : ℚ → ℚ) (u : String) (d₁ d₂ : UserData) (n₁ n₂ : ℚ)
    (hd : d₁ = d₂) (hn : n₁ = n₂) :
    analyzeUserComprehensive E u (Except.ok d₁) n₁ =
      analyzeUserComprehensive E u (Except.ok d₂) n₂ := by
  rw [hd, hn]

/-- Witness for C5 on a concrete record. -/
theorem claim5_witness :
    (let d : UserData :=
      { username := "alice", created_utc := 500, link_karma := 10, comment_karma := 20,
        is_verified := false,
        posts := [⟨600, "pics", 2, "t", "b"⟩],
        comments := [⟨700, "news", 1, "c"⟩] }
     analyzeUserComprehensive (fun _ => 1) "alice" (Except.ok d) 1000 =
       analyzeUserComprehensive (fun _ => 1) "alice" (Except.ok d) 1000) :=
  claim5_deterministic (fun _ => 1) "alice" _ _ 1000 1000 rfl rfl

/-! ### Claim C7 -/

theorem dupTexts_length (items : List (Option String)) :
    (items.filterMap dupKeptText).length = items.countP rawTextKeep := by
  induction items with
  | nil => rfl
  | cons x xs ih =>
    cases x with
    | none =>
      simp only [List.filterMap_cons, dupKeptText, List.countP_cons, rawTextKeep]
      simpa using ih
    | some t =>
      by_cases h : t.data.any (fun c => !isPySpace c)
      · simp only [List.filterMap_cons, dupKeptText, h, if_pos, List.length_cons,
          List.countP_cons, rawTextKeep]
        simp [h, ih]
      · simp only [List.filterMap_cons, dupKeptText, List.countP_cons, rawTextKeep]
        simp [h, ih]

/-- C7 (amended): the detector returns 0.0 whenever fewer than 3 items
survive the raw-text filter (`text and text.strip()`), which runs on the
raw text BEFORE normalisation; in particular empty, one- and two-element
collections give 0.0 without raising. -/
theorem claim7_amended (items : List (Option String))
    (h : items.countP rawTextKeep < 3) : getDuplicateContentRatioQ items = 0 := by
  unfold getDuplicateContentRatioQ
  rw [if_pos (by rw [dupTexts_length]; exact h)]

/-- Witness for C7 on a two-element collection. -/
theorem claim7_witness :
    List.countP rawTextKeep [some "a", some "b"] < 3 ∧
      getDuplicateContentRatioQ [some "a", some "b"] = 0 :=
  ⟨by decide, claim7_amended [some "a", some "b"] (by decide)⟩

/-- C7 counterexample to the claim as stated: all three texts normalise
to the empty string, so fewer than 3 non-empty texts remain AFTER
normalisation, yet the detector returns 1.0, not 0.0 — the length-3
filter runs before normalisation and pairs of empty cleaned strings have
similarity 1.0. -/
theorem claim7_counterexample :
    cleanText "!!!".data = [] ∧ cleanText "???".data = [] ∧ cleanText ";;;".data = [] ∧
      getDuplicateContentRatioQ [some "!!!", some "???", some ";;;"] = 1 := by
  refine ⟨by decide, by decide, by decide, by decide⟩

/-! ### Claim C8 -/

theorem allPairs_length_perm {α : Type} {l₁ l₂ : List α} (h : l₁.Perm l₂) :
    (allPairs l₁).length = (allPairs l₂).length := by
  induction h with
  | nil => rfl
  | cons x h ih =>
    simp only [allPairs, List.length_append, List.length_map, ih, h.length_eq]
  | swap x y l =>
    simp only [allPairs, List.length_append, List.length_map, List.length_cons]
    try omega
  | trans h₁ h₂ ih₁ ih₂ => exact ih₁.trans ih₂

theorem allPairs_countP_perm {α : Type} (q : α × α → Bool) {l₁ l₂ : List α}
    (h : l₁.Perm l₂) (hsym : ∀ x ∈ l₁, ∀ y ∈ l₁, q (x, y) = q (y, x)) :
    (allPairs l₁).countP q = (allPairs l₂).countP q := by
  induction h with
  | nil => rfl
  | cons x h ih =>
    simp only [allPairs, List.countP_append, List.countP_map]
    rw [h.countP_eq (q ∘ fun y => (x, y)), ih (fun a ha b hb =>
      hsym a (List.mem_cons_of_mem x ha) b (List.mem_cons_of_mem x hb))]
  | swap a b l =>
    simp only [allPairs, List.countP_append, List.countP_map, List.countP_cons,
      Function.comp]
    have hab : q (b, a) = q (a, b) :=
      hsym b (by simp) a (by simp)
    simp only [hab]
    omega
  | trans h₁ h₂ ih₁ ih₂ =>
    rename_i l₁' l₂' l₃'
    have hsym₂ : ∀ x ∈ l₂', ∀ y ∈ l₂', q (x, y) = q (y, x) := fun a ha b hb =>
      hsym a (h₁.mem_iff.mpr ha) b (h₁.mem_iff.mpr hb)
    exact (ih₁ hsym).trans (ih₂ hsym₂)

/-- C8 (amended): `duplicate_ratio` is invariant under reordering of the
input list PROVIDED the duplicate decision (`SequenceMatcher` ratio
above 0.8) is symmetric on every pair of surviving cleaned texts.  The
underlying `SequenceMatcher.ratio` is order-sensitive, so this proviso
is not vacuous and reordering can otherwise change the result. -/
theorem claim8_amended (items₁ items₂ : List (Option String)) (hperm : items₁.Perm items₂)
    (hsym : ∀ x ∈ items₁.filterMap dupKeptText, ∀ y ∈ items₁.filterMap dupKeptText,
      dupPairB (x, y) = dupPairB (y, x)) :
    getDuplicateContentRatioQ items₁ = getDuplicateContentRatioQ items₂ := by
  unfold getDuplicateContentRatioQ
  have ht : (items₁.filterMap dupKeptText).Perm (items₂.filterMap dupKeptText) :=
    hperm.filterMap _
  have hlen : (items₁.filterMap dupKeptText).length = (items₂.filterMap dupKeptText).length :=
    ht.length_eq
  by_cases h3 : (items₁.filterMap dupKeptText).length < 3
  · rw [if_pos h3, if_pos (hlen ▸ h3)]
  · rw [if_neg h3, if_neg (hlen ▸ h3)]
    show mkRat (List.countP dupPairB (allPairs (items₁.filterMap dupKeptText)) : ℤ)
        (max (allPairs (items₁.filterMap dupKeptText)).length 1) =
      mkRat (List.countP dupPairB (allPairs (items₂.filterMap dupKeptText)) : ℤ)
        (max (allPairs (items₂.filterMap dupKeptText)).length 1)
    rw [allPairs_countP_perm dupPairB ht hsym, allPairs_length_perm ht]

/-- Witness for C8 (amended) on a concrete reordering with symmetric
pair decisions. -/
theorem claim8_witness :
    List.Perm [some "ab", some "ab", some "cd"] [some "cd", some "ab", some "ab"] ∧
      getDuplicateContentRatioQ [some "ab", some "ab", some "cd"] =
        getDuplicateContentRatioQ [some "cd", some "ab", some "ab"] :=
  ⟨by decide, claim8_amended _ _ (by decide) (by decide)⟩

set_option maxRecDepth 80000 in
/-- C8 counterexample to the claim as stated: swapping the first two
texts changes the result from 1/3 to 0, because
`SequenceMatcher(None, "aaabaa", "abaaba").ratio() = 5/6 > 0.8` while
the swapped call yields `2/3 ≤ 0.8`. -/
theorem claim8_counterexample :
    List.Perm [some "aaabaa", some "abaaba", some "cccc"]
        [some "abaaba", some "aaabaa", some "cccc"] ∧
      smRatioVal "aaabaa".data "abaaba".data = mkRat 5 6 ∧
      smRatioVal "abaaba".data "aaabaa".data = mkRat 2 3 ∧
      getDuplicateContentRatioQ [some "aaabaa", some "abaaba", some "cccc"] = mkRat 1 3 ∧
      getDuplicateContentRatioQ [some "abaaba", some "aaabaa", some "cccc"] = 0 ∧
      (mkRat 1 3 : ℚ) ≠ 0 := by
  refine ⟨by decide, by decide, by decide, by decide, by decide, by decide⟩

/-! ### Claim C1 -/

theorem mkRat_eq_divQ (n : ℤ) (d : ℕ) : mkRat n d = (n : ℚ) / (d : ℚ) := by
  rw [Rat.mkRat_eq_divInt, Rat.divInt_eq_div]
  norm_num

theorem dupRatioQ_nonneg (items : List (Option String)) :
    0 ≤ getDuplicateContentRatioQ items := by
  unfold getDuplicateContentRatioQ
  by_cases h : (items.filterMap dupKeptText).length < 3
  · rw [if_pos h]
  · rw [if_neg h]
    show (0:ℚ) ≤ mkRat (List.countP dupPairB (allPairs (items.filterMap dupKeptText)) : ℤ)
      (max (allPairs (items.filterMap dupKeptText)).length 1)
    rw [mkRat_eq_divQ]
    positivity

theorem dupRatioQ_le_one (items : List (Option String)) :
    getDuplicateContentRatioQ items ≤ 1 := by
  unfold getDuplicateContentRatioQ
  by_cases h : (items.filterMap dupKeptText).length < 3
  · rw [if_pos h]
    norm_num
  · rw [if_neg h]
    show mkRat (List.countP dupPairB (allPairs (items.filterMap dupKeptText)) : ℤ)
      (max (allPairs (items.filterMap dupKeptText)).length 1) ≤ 1
    rw [mkRat_eq_divQ]
    set prs := allPairs (items.filterMap dupKeptText) with hprs
    have hc : prs.countP dupPairB ≤ prs.length := List.countP_le_length _
    have hd : (0:ℚ) < ((max prs.length 1 : ℕ) : ℚ) := by
      have h1 : (1:ℕ) ≤ max prs.length 1 := le_max_right _ _
      exact_mod_cast Nat.lt_of_lt_of_le Nat.zero_lt_one h1
    rw [div_le_one hd]
    have h2 : prs.length ≤ max prs.length 1 := le_max_left _ _
    have h3 : ((prs.countP dupPairB : ℤ) : ℚ) ≤ ((prs.length : ℕ) : ℚ) := by
      exact_mod_cast hc
    have h4 : ((prs.length : ℕ) : ℚ) ≤ ((max prs.length 1 : ℕ) : ℚ) := by exact_mod_cast h2
    linarith

theorem usernameSuspicious_bounds (u : String) :
    0 ≤ usernameSuspicious u ∧ usernameSuspicious u ≤ 1 := by
  unfold usernameSuspicious
  split_ifs <;> constructor <;> norm_num

set_option maxHeartbeats 1000000 in
/-- C1 (amended): for every activity record whose creation time is not
in the future (`created_utc ≤ now`) and whose total karma is
nonnegative, every `*_score` field of the computed feature set lies in
[0, 1] and the composite score lies in [0, 100].  `E` models `np.exp`,
assumed positive and at most 1 on nonpositive arguments (true of the
exponential and of its float implementation). -/
theorem claim1_amended (E : ℚ → ℚ) (hE : ∀ x : ℚ, x ≤ 0 → 0 < E x ∧ E x ≤ 1)
    (d : UserData) (now : ℚ) (hage : d.created_utc ≤ now)
    (hk : 0 ≤ d.link_karma + d.comment_karma) :
    (0 ≤ (computeFeatures E d now).age_score ∧ (computeFeatures E d now).age_score ≤ 1) ∧
    (0 ≤ (computeFeatures E d now).comment_to_post_score ∧
      (computeFeatures E d now).comment_to_post_score ≤ 1) ∧
    (0 ≤ (computeFeatures E d now).subreddit_diversity_score ∧
      (computeFeatures E d now).subreddit_diversity_score ≤ 1) ∧
    (0 ≤ (computeFeatures E d now).activity_spike_score ∧
      (computeFeatures E d now).activity_spike_score ≤ 1) ∧
    (0 ≤ (computeFeatures E d now).post_to_karma_score ∧
      (computeFeatures E d now).post_to_karma_score ≤ 1) ∧
    (0 ≤ (computeFeatures E d now).duplicate_content_score ∧
      (computeFeatures E d now).duplicate_content_score ≤ 1) ∧
    (0 ≤ (computeFeatures E d now).posts_per_day_score ∧
      (computeFeatures E d now).posts_per_day_score ≤ 1) ∧
    (0 ≤ (computeFeatures E d now).username_suspicious_score ∧
      (computeFeatures E d now).username_suspicious_score ≤ 1) ∧
    (0 ≤ (computeFeatures E d now).low_karma_score ∧
      (computeFeatures E d now).low_karma_score ≤ 1) ∧
    (0 ≤ (computeBotScore100Enhanced E (computeFeatures E d now)).1 ∧
      (computeBotScore100Enhanced E (computeFeatures E d now)).1 ≤ 100) := by
  have hageD : (0:ℚ) ≤ (now - d.created_utc) / (60 * 60 * 24) := by
    apply div_nonneg (by linarith) (by norm_num)
  have hexp := hE (-((now - d.created_utc) / (60 * 60 * 24)) / 180) (by
    apply div_nonpos_of_nonpos_of_nonneg (by linarith) (by norm_num))
  have hkQ : (0:ℚ) ≤ ((d.link_karma + d.comment_karma : ℤ) : ℚ) := by exact_mod_cast hk
  have hAge : 0 ≤ (computeFeatures E d now).age_score ∧
      (computeFeatures E d now).age_score ≤ 1 := by
    show 0 ≤ E (-((now - d.created_utc) / (60 * 60 * 24)) / 180) ∧
      E (-((now - d.created_utc) / (60 * 60 * 24)) / 180) ≤ 1
    exact ⟨le_of_lt hexp.1, hexp.2⟩
  have hCtoP : 0 ≤ (computeFeatures E d now).comment_to_post_score ∧
      (computeFeatures E d now).comment_to_post_score ≤ 1 := by
    have e : (computeFeatures E d now).comment_to_post_score =
        (if (d.comments.length : ℚ) / ((d.posts.length : ℚ) + 1/1000000) < 1 then
          1 - min 1 ((d.comments.length : ℚ) / ((d.posts.length : ℚ) + 1/1000000)) else 0) := rfl
    rw [e]
    have hcp : (0:ℚ) ≤ (d.comments.length : ℚ) / ((d.posts.length : ℚ) + 1/1000000) := by
      positivity
    split
    · constructor
      · have h1 : min 1 ((d.comments.length : ℚ) / ((d.posts.length : ℚ) + 1/1000000)) ≤ 1 :=
          min_le_left _ _
        linarith
      · have h1 : 0 ≤ min 1 ((d.comments.length : ℚ) / ((d.posts.length : ℚ) + 1/1000000)) :=
          le_min (by norm_num) hcp
        linarith
    · exact ⟨le_refl 0, by norm_num⟩
  have hDiv : 0 ≤ (computeFeatures E d now).subreddit_diversity_score ∧
      (computeFeatures E d now).subreddit_diversity_score ≤ 1 := by
    have e : (computeFeatures E d now).subreddit_diversity_score =
        1 - min ((((d.posts.map (fun p => p.subreddit) ++
          d.comments.map (fun c => c.subreddit)).dedup.length : ℕ) : ℚ) / 10) 1 := rfl
    rw [e]
    constructor
    · have h1 : min ((((d.posts.map (fun p => p.subreddit) ++
          d.comments.map (fun c => c.subreddit)).dedup.length : ℕ) : ℚ) / 10) 1 ≤ 1 :=
        min_le_right _ _
      linarith
    · have h1 : (0:ℚ) ≤ min ((((d.posts.map (fun p => p.subreddit) ++
          d.comments.map (fun c => c.subreddit)).dedup.length : ℕ) : ℚ) / 10) 1 :=
        le_min (by positivity) (by norm_num)
      linarith
  have hSpike : 0 ≤ (computeFeatures E d now).activity_spike_score ∧
      (computeFeatures E d now).activity_spike_score ≤ 1 := by
    have e : (computeFeatures E d now).activity_spike_score =
        (if 5 < (timesOf d).length then
          if 0 < meanGapOf d then (if spikeSignal d then (1:ℚ) else 0) else 0 else 0) := rfl
    rw [e]
    split
    · split
      · split <;> norm_num
      · norm_num
    · norm_num
  have hP2K : 0 ≤ (computeFeatures E d now).post_to_karma_score ∧
      (computeFeatures E d now).post_to_karma_score ≤ 1 := by
    have e : (computeFeatures E d now).post_to_karma_score =
        min (((d.posts.length + d.comments.length : ℕ) : ℚ) /
          (((d.link_karma + d.comment_karma : ℤ) : ℚ) + 1/1000000) * 10) 1 := rfl
    rw [e]
    constructor
    · apply le_min _ (by norm_num)
      apply mul_nonneg _ (by norm_num)
      apply div_nonneg (by positivity) (by linarith)
    · exact min_le_right _ _
  have hDup : 0 ≤ (computeFeatures E d now).duplicate_content_score ∧
      (computeFeatures E d now).duplicate_content_score ≤ 1 := by
    have e : (computeFeatures E d now).duplicate_content_score =
        max (getDuplicateContentRatioQ (d.comments.map (fun c => some c.body)))
          (getDuplicateContentRatioQ (d.posts.map (fun p => some p.title))) := rfl
    rw [e]
    exact ⟨le_max_of_le_left (dupRatioQ_nonneg _),
      max_le (dupRatioQ_le_one _) (dupRatioQ_le_one _)⟩
  have hPpd : 0 ≤ (computeFeatures E d now).posts_per_day_score ∧
      (computeFeatures E d now).posts_per_day_score ≤ 1 := by
    have e : (computeFeatures E d now).posts_per_day_score =
        min (((d.posts.length + d.comments.length : ℕ) : ℚ) /
          max ((now - d.created_utc) / (60 * 60 * 24)) 1 / 20) 1 := rfl
    rw [e]
    constructor
    · apply le_min _ (by norm_num)
      apply div_nonneg _ (by norm_num)
      apply div_nonneg (by positivity)
      have h1 : (1:ℚ) ≤ max ((now - d.created_utc) / (60 * 60 * 24)) 1 := le_max_right _ _
      linarith
    · exact min_le_right _ _
  have hUser : 0 ≤ (computeFeatures E d now).username_suspicious_score ∧
      (computeFeatures E d now).username_suspicious_score ≤ 1 := by
    have e : (computeFeatures E d now).username_suspicious_score =
        usernameSuspicious d.username := rfl
    rw [e]
    exact usernameSuspicious_bounds _
  have hLowK : 0 ≤ (computeFeatures E d now).low_karma_score ∧
      (computeFeatures E d now).low_karma_score ≤ 1 := by
    have e : (computeFeatures E d now).low_karma_score =
        (if ((d.link_karma + d.comment_karma : ℤ) : ℚ) /
          ((max (d.posts.length + d.comments.length) 1 : ℕ) : ℚ) < 2 then (1:ℚ) else 0) := rfl
    rw [e]
    split <;> norm_num
  refine ⟨hAge, hCtoP, hDiv, hSpike, hP2K, hDup, hPpd, hUser, hLowK, ?_⟩
  set f := computeFeatures E d now with hf
  have hVer : 0 ≤ f.verification_penalty ∧ f.verification_penalty ≤ 1/5 := by
    have e : f.verification_penalty = (if d.is_verified then (0:ℚ) else 1/5) := rfl
    rw [e]
    split <;> norm_num
  have hexp90 := hE (-((now - d.created_utc) / (60 * 60 * 24)) / 90) (by
    apply div_nonpos_of_nonpos_of_nonneg (by linarith) (by norm_num))
  have hAgeB : 0 ≤ agePenaltyOf E f ∧ agePenaltyOf E f ≤ 20 := by
    unfold agePenaltyOf
    have hageF : f.age_days = (now - d.created_utc) / (60 * 60 * 24) := rfl
    constructor
    · apply mul_nonneg (by norm_num)
      apply le_min (by norm_num)
      rw [hageF]
      exact le_of_lt hexp90.1
    · nlinarith [min_le_left (1:ℚ) (E (-f.age_days / 90))]
  have hActB : 0 ≤ min (activityRawOf f) 20 ∧ min (activityRawOf f) 20 ≤ 20 := by
    constructor
    · apply le_min _ (by norm_num)
      unfold activityRawOf
      have h1 : (0:ℚ) ≤ if f.activity_spike_score > 0 then (10:ℚ) else 0 := by
        split <;> norm_num
      have h2 : (0:ℚ) ≤ if f.posts_per_day_score > 1/2 then 10 * f.posts_per_day_score else 0 := by
        split
        · nlinarith [hPpd.1]
        · norm_num
      nlinarith [hUser.1]
    · exact min_le_right _ _
  have hContB : 0 ≤ min (contentRawOf f) 20 ∧ min (contentRawOf f) 20 ≤ 20 := by
    constructor
    · apply le_min _ (by norm_num)
      unfold contentRawOf
      nlinarith [hDup.1, hLowK.1]
    · exact min_le_right _ _
  have hEngB : 0 ≤ engagementOf f ∧ engagementOf f ≤ 20 := by
    unfold engagementOf
    constructor
    · apply mul_nonneg (by norm_num)
      exact le_min (by nlinarith [hP2K.1]) (by norm_num)
    · nlinarith [min_le_right (f.post_to_karma_score * 2) (1:ℚ)]
  have hDivB : 0 ≤ min (diversityRawOf f) 20 ∧ min (diversityRawOf f) 20 ≤ 20 := by
    constructor
    · apply le_min _ (by norm_num)
      unfold diversityRawOf
      nlinarith [hDiv.1, hCtoP.1]
    · exact min_le_right _ _
  have hVerB : 0 ≤ f.verification_penalty * 5 ∧ f.verification_penalty * 5 ≤ 1 := by
    constructor
    · nlinarith [hVer.1]
    · nlinarith [hVer.2]
  have hTp : 0 ≤ totalPreOf E f ∧ totalPreOf E f ≤ 101 := by
    unfold totalPreOf
    constructor
    · linarith [hAgeB.1, hActB.1, hContB.1, hEngB.1, hDivB.1, hVerB.1]
    · linarith [hAgeB.2, hActB.2, hContB.2, hEngB.2, hDivB.2, hVerB.2]
  show 0 ≤ pyRound 2 (min (totalPreOf E f) 100) ∧ pyRound 2 (min (totalPreOf E f) 100) ≤ 100
  constructor
  · have h0 : pyRound 2 ((0:ℤ) : ℚ) ≤ pyRound 2 (min (totalPreOf E f) 100) :=
      pyRound_mono 2 (le_min hTp.1 (by norm_num))
    rw [pyRound_int] at h0
    exact_mod_cast h0
  · have h1 : pyRound 2 (min (totalPreOf E f) 100) ≤ pyRound 2 ((100:ℤ) : ℚ) :=
      pyRound_mono 2 (by
        push_cast
        exact min_le_right _ _)
    rw [pyRound_int] at h1
    exact_mod_cast h1

/-- A record with negative total karma (comment karma can be negative on
the platform). -/
def userNegKarma : UserData :=
  { username := "bob", created_utc := 1000, link_karma := -1, comment_karma := 0,
    is_verified := true, posts := [⟨1000, "x", 0, "", ""⟩], comments := [] }

/-- A record whose creation timestamp lies in the future of the injected
clock reading. -/
def userFromFuture : UserData :=
  { username := "bob", created_utc := 90400, link_karma := 0, comment_karma := 0,
    is_verified := true, posts := [], comments := [] }

/-- A stand-in for `np.exp` agreeing with the exponential's key sign
facts: it exceeds 1 on positive arguments and equals 1 at 0. -/
def expLike2 : ℚ → ℚ := fun x => if 0 < x then 2 else 1

/-- C1 counterexample to the claim as stated: a record with negative
total karma makes `post_to_karma_score` negative (the source computes
`min(ratio * 10, 1.0)` with a negative ratio and no lower clamp), and a
record with a future creation time makes `age_score = exp(-age_days/180)`
exceed 1 (negative `age_days`, no upper clamp). -/
theorem claim1_counterexample :
    (computeFeatures (fun _ => 1) userNegKarma 1000).post_to_karma_score < 0 ∧
      1 < (computeFeatures expLike2 userFromFuture 1000).age_score := by
  constructor
  · have e : (computeFeatures (fun _ => 1) userNegKarma 1000).post_to_karma_score =
        min (((userNegKarma.posts.length + userNegKarma.comments.length : ℕ) : ℚ) /
          (((userNegKarma.link_karma + userNegKarma.comment_karma : ℤ) : ℚ) + 1/1000000) * 10)
          1 := rfl
    rw [e]
    have h1 : ((userNegKarma.posts.length + userNegKarma.comments.length : ℕ) : ℚ) = 1 := by
      norm_num [userNegKarma]
    have h2 : ((userNegKarma.link_karma + userNegKarma.comment_karma : ℤ) : ℚ) = -1 := by
      norm_num [userNegKarma]
    rw [h1, h2]
    exact min_lt_iff.mpr (Or.inl (by norm_num))
  · have e : (computeFeatures expLike2 userFromFuture 1000).age_score =
        expLike2 (-((1000 - userFromFuture.created_utc) / (60 * 60 * 24)) / 180) := rfl
    rw [e]
    have h1 : -((1000 - userFromFuture.created_utc) / (60 * 60 * 24)) / 180 =
        (89400 : ℚ) / (86400 * 180) := by
      norm_num [userFromFuture]
    rw [h1]
    unfold expLike2
    rw [if_pos (by norm_num)]
    norm_num

/-- A benign record for exercising the amended C1 bounds. -/
def userBenign : UserData :=
  { username := "bob", created_utc := 0, link_karma := 0, comment_karma := 0,
    is_verified := true, posts := [], comments := [] }

/-- Witness for C1 (amended): hypotheses hold for the constant-one
exponential stand-in and a benign record, and the composite score bound
follows by the theorem. -/
theorem claim1_witness :
    (∀ x : ℚ, x ≤ 0 → 0 < (1:ℚ) ∧ (1:ℚ) ≤ 1) ∧
    userBenign.created_utc ≤ 0 ∧
    0 ≤ userBenign.link_karma + userBenign.comment_karma ∧
    (0 ≤ (computeBotScore100Enhanced (fun _ => 1)
        (computeFeatures (fun _ => 1) userBenign 0)).1 ∧
      (computeBotScore100Enhanced (fun _ => 1)
        (computeFeatures (fun _ => 1) userBenign 0)).1 ≤ 100) :=
  ⟨fun _ _ => ⟨by norm_num, le_refl 1⟩, by decide, by decide,
    (claim1_amended (fun _ => 1) (fun _ _ => ⟨by norm_num, le_refl 1⟩) userBenign 0
      (by decide) (by decide)).2.2.2.2.2.2.2.2.2⟩

/-! ### Claim C3 -/

theorem score_mono_of_totalPre {E : ℚ → ℚ} {f₁ f₂ : FeatureSet}
    (h : totalPreOf E f₁ ≤ totalPreOf E f₂) :
    (computeBotScore100Enhanced E f₁).1 ≤ (computeBotScore100Enhanced E f₂).1 := by
  show pyRound 2 (min (totalPreOf E f₁) 100) ≤ pyRound 2 (min (totalPreOf E f₂) 100)
  exact pyRound_mono 2 (min_le_min h (le_refl 100))

theorem if_gt0_ten_mono {v w : ℚ} (h : v ≤ w) :
    (if v > 0 then (10:ℚ) else 0) ≤ (if w > 0 then (10:ℚ) else 0) := by
  split
  · rw [if_pos (by rename_i hv; exact lt_of_lt_of_le hv h)]
  · split <;> norm_num

theorem ppd_term_mono {v w : ℚ} (h : v ≤ w) :
    (if v > 1/2 then 10 * v else 0) ≤ (if w > 1/2 then 10 * w else 0) := by
  split
  · rename_i hv
    rw [if_pos (lt_of_lt_of_le hv h)]
    linarith
  · split
    · rename_i hw
      nlinarith
    · exact le_refl 0

/-- C3: the composite score is monotone: increasing any single feature
value of the feature set (each `*_score` field and the verification
penalty, holding all other fields fixed) never decreases the score
returned by `compute_bot_score_100_enhanced`.  (`age_days` is not a
feature: the spec's data model lists it among the unbounded auxiliary
reporting values, and the score is strictly decreasing in it.) -/
theorem claim3_score_monotone (E : ℚ → ℚ) (f : FeatureSet) :
    (∀ v w : ℚ, v ≤ w →
      (computeBotScore100Enhanced E { f with age_score := v }).1 ≤
        (computeBotScore100Enhanced E { f with age_score := w }).1) ∧
    (∀ v w : ℚ, v ≤ w →
      (computeBotScore100Enhanced E { f with comment_to_post_score := v }).1 ≤
        (computeBotScore100Enhanced E { f with comment_to_post_score := w }).1) ∧
    (∀ v w : ℚ, v ≤ w →
      (computeBotScore100Enhanced E { f with subreddit_diversity_score := v }).1 ≤
        (computeBotScore100Enhanced E { f with subreddit_diversity_score := w }).1) ∧
    (∀ v w : ℚ, v ≤ w →
      (computeBotScore100Enhanced E { f with activity_spike_score := v }).1 ≤
        (computeBotScore100Enhanced E { f with activity_spike_score := w }).1) ∧
    (∀ v w : ℚ, v ≤ w →
      (computeBotScore100Enhanced E { f with post_to_karma_score := v }).1 ≤
        (computeBotScore100Enhanced E { f with post_to_karma_score := w }).1) ∧
    (∀ v w : ℚ, v ≤ w →
      (computeBotScore100Enhanced E { f with duplicate_content_score := v }).1 ≤
        (computeBotScore100Enhanced E { f with duplicate_content_score := w }).1) ∧
    (∀ v w : ℚ, v ≤ w →
      (computeBotScore100Enhanced E { f with posts_per_day_score := v }).1 ≤
        (computeBotScore100Enhanced E { f with posts_per_day_score := w }).1) ∧
    (∀ v w : ℚ, v ≤ w →
      (computeBotScore100Enhanced E { f with username_suspicious_score := v }).1 ≤
        (computeBotScore100Enhanced E { f with username_suspicious_score := w }).1) ∧
    (∀ v w : ℚ, v ≤ w →
      (computeBotScore100Enhanced E { f with low_karma_score := v }).1 ≤
        (computeBotScore100Enhanced E { f with low_karma_score := w }).1) ∧
    (∀ v w : ℚ, v ≤ w →
      (computeBotScore100Enhanced E { f with verification_penalty := v }).1 ≤
        (computeBotScore100Enhanced E { f with verification_penalty := w }).1) := by
  refine ⟨?_, ?_, ?_, ?_, ?_, ?_, ?_, ?_, ?_, ?_⟩
  · intro v w _
    exact le_of_eq rfl
  · intro v w hvw
    apply score_mono_of_totalPre
    unfold totalPreOf
    refine add_le_add (add_le_add (add_le_add (add_le_add (add_le_add
      (le_of_eq rfl) (le_of_eq rfl)) (le_of_eq rfl)) (le_of_eq rfl)) ?_) (le_of_eq rfl)
    apply min_le_min _ (le_refl 20)
    unfold diversityRawOf
    exact add_le_add (le_of_eq rfl) (mul_le_mul_of_nonneg_left hvw (by norm_num))
  · intro v w hvw
    apply score_mono_of_totalPre
    unfold totalPreOf
    refine add_le_add (add_le_add (add_le_add (add_le_add (add_le_add
      (le_of_eq rfl) (le_of_eq rfl)) (le_of_eq rfl)) (le_of_eq rfl)) ?_) (le_of_eq rfl)
    apply min_le_min _ (le_refl 20)
    unfold diversityRawOf
    exact add_le_add (mul_le_mul_of_nonneg_left hvw (by norm_num)) (le_of_eq rfl)
  · intro v w hvw
    apply score_mono_of_totalPre
    unfold totalPreOf
    refine add_le_add (add_le_add (add_le_add (add_le_add (add_le_add
      (le_of_eq rfl) ?_) (le_of_eq rfl)) (le_of_eq rfl)) (le_of_eq rfl)) (le_of_eq rfl)
    apply min_le_min _ (le_refl 20)
    unfold activityRawOf
    exact add_le_add (add_le_add (if_gt0_ten_mono hvw) (le_of_eq rfl)) (le_of_eq rfl)
  · intro v w hvw
    apply score_mono_of_totalPre
    unfold totalPreOf
    refine add_le_add (add_le_add (add_le_add (add_le_add (add_le_add
      (le_of_eq rfl) (le_of_eq rfl)) (le_of_eq rfl)) ?_) (le_of_eq rfl)) (le_of_eq rfl)
    unfold engagementOf
    exact mul_le_mul_of_nonneg_left (min_le_min (by linarith) (le_refl 1)) (by norm_num)
  · intro v w hvw
    apply score_mono_of_totalPre
    unfold totalPreOf
    refine add_le_add (add_le_add (add_le_add (add_le_add (add_le_add
      (le_of_eq rfl) (le_of_eq rfl)) ?_) (le_of_eq rfl)) (le_of_eq rfl)) (le_of_eq rfl)
    apply min_le_min _ (le_refl 20)
    unfold contentRawOf
    exact add_le_add (mul_le_mul_of_nonneg_left hvw (by norm_num)) (le_of_eq rfl)
  · intro v w hvw
    apply score_mono_of_totalPre
    unfold totalPreOf
    refine add_le_add (add_le_add (add_le_add (add_le_add (add_le_add
      (le_of_eq rfl) ?_) (le_of_eq rfl)) (le_of_eq rfl)) (le_of_eq rfl)) (le_of_eq rfl)
    apply min_le_min _ (le_refl 20)
    unfold activityRawOf
    exact add_le_add (add_le_add (le_of_eq rfl) (ppd_term_mono hvw)) (le_of_eq rfl)
  · intro v w hvw
    apply score_mono_of_totalPre
    unfold totalPreOf
    refine add_le_add (add_le_add (add_le_add (add_le_add (add_le_add
      (le_of_eq rfl) ?_) (le_of_eq rfl)) (le_of_eq rfl)) (le_of_eq rfl)) (le_of_eq rfl)
    apply min_le_min _ (le_refl 20)
    unfold activityRawOf
    exact add_le_add (le_of_eq rfl) (mul_le_mul_of_nonneg_left hvw (by norm_num))
  · intro v w hvw
    apply score_mono_of_totalPre
    unfold totalPreOf
    refine add_le_add (add_le_add (add_le_add (add_le_add (add_le_add
      (le_of_eq rfl) (le_of_eq rfl)) ?_) (le_of_eq rfl)) (le_of_eq rfl)) (le_of_eq rfl)
    apply min_le_min _ (le_refl 20)
    unfold contentRawOf
    exact add_le_add (le_of_eq rfl) (mul_le_mul_of_nonneg_left hvw (by norm_num))
  · intro v w hvw
    apply score_mono_of_totalPre
    unfold totalPreOf
    refine add_le_add (add_le_add (add_le_add (add_le_add (add_le_add
      (le_of_eq rfl) (le_of_eq rfl)) (le_of_eq rfl)) (le_of_eq rfl)) (le_of_eq rfl)) ?_
    exact mul_le_mul_of_nonneg_right hvw (by norm_num)

/-- A baseline feature set for the monotonicity witness. -/
def featBase : FeatureSet :=
  { age_score := 1, age_days := 0, comment_to_post_score := 0,
    subreddit_diversity_score := 0, subreddit_count := 0, activity_spike_score := 0,
    post_to_karma_score := 0, duplicate_content_score := 0, posts_per_day_score := 0,
    username_suspicious_score := 0, low_karma_score := 0, verification_penalty := 0,
    total_posts := 0, total_comments := 0, total_karma := 0, avg_karma_per_post := 0 }

/-- Witness for C3: raising the duplicate-content feature from 0 to 1
does not decrease the score. -/
theorem claim3_witness :
    (0 : ℚ) ≤ 1 ∧
      (computeBotScore100Enhanced (fun _ => 1) { featBase with duplicate_content_score := 0 }).1 ≤
        (computeBotScore100Enhanced (fun _ => 1) { featBase with duplicate_content_score := 1 }).1 :=
  ⟨by norm_num,
    (claim3_score_monotone (fun _ => 1) featBase).2.2.2.2.2.1 0 1 (by norm_num)⟩

/-! ### Claim C4 -/

theorem rheZ_eval_lt (x : ℚ) (n : ℤ) (h1 : (n:ℚ) ≤ x) (h2 : x < (n:ℚ) + 1)
    (h3 : x - (n:ℚ) < 1/2) : rheZ x = n := by
  have hf : ⌊x⌋ = n := Int.floor_eq_iff.mpr ⟨h1, by linarith⟩
  rw [rheZ_of_frac_lt (by rw [hf]; exact h3), hf]

theorem rheZ_eval_gt (x : ℚ) (n : ℤ) (h1 : (n:ℚ) ≤ x) (h2 : x < (n:ℚ) + 1)
    (h3 : 1/2 < x - (n:ℚ)) : rheZ x = n + 1 := by
  have hf : ⌊x⌋ = n := Int.floor_eq_iff.mpr ⟨h1, by linarith⟩
  rw [rheZ_of_frac_gt (by rw [hf]; exact h3), hf]

theorem pyRound2_eval_lt (x : ℚ) (n : ℤ) (h1 : (n:ℚ) ≤ 100 * x) (h2 : 100 * x < (n:ℚ) + 1)
    (h3 : 100 * x - (n:ℚ) < 1/2) : pyRound 2 x = (n:ℚ) / 100 := by
  unfold pyRound
  rw [show x * 10 ^ 2 = 100 * x by ring, rheZ_eval_lt _ n h1 h2 h3]
  norm_num

theorem pyRound2_eval_gt (x : ℚ) (n : ℤ) (h1 : (n:ℚ) ≤ 100 * x) (h2 : 100 * x < (n:ℚ) + 1)
    (h3 : 1/2 < 100 * x - (n:ℚ)) : pyRound 2 x = ((n:ℚ) + 1) / 100 := by
  unfold pyRound
  rw [show x * 10 ^ 2 = 100 * x by ring, rheZ_eval_gt _ n h1 h2 h3]
  push_cast
  ring

theorem pyRound2_le_int (x : ℚ) (n : ℤ) (h : x ≤ (n:ℚ)) : pyRound 2 x ≤ (n:ℚ) := by
  have h2 := pyRound_mono 2 h
  rw [pyRound_int] at h2
  exact h2

/-- C4 (amended): each rounded breakdown component respects its declared
cap (20 per bucket, 5 for the verification penalty), the reported score
is exactly the clamped-and-rounded sum of the six UNROUNDED component
contributions, and — when the pre-clamp total is within 100 — the sum of
the rounded breakdown entries agrees with the reported total only up to
rounding, within 7/200 = 0.035; exact equality can fail. -/
theorem claim4_amended (E : ℚ → ℚ) (f : FeatureSet) (hv1 : f.verification_penalty ≤ 1) :
    (computeBotScore100Enhanced E f).2.account_age_penalty ≤ 20 ∧
    (computeBotScore100Enhanced E f).2.activity_pattern_penalty ≤ 20 ∧
    (computeBotScore100Enhanced E f).2.content_quality_penalty ≤ 20 ∧
    (computeBotScore100Enhanced E f).2.engagement_penalty ≤ 20 ∧
    (computeBotScore100Enhanced E f).2.diversity_penalty ≤ 20 ∧
    (computeBotScore100Enhanced E f).2.verification_penalty ≤ 5 ∧
    (computeBotScore100Enhanced E f).1 = pyRound 2 (min (totalPreOf E f) 100) ∧
    totalPreOf E f = agePenaltyOf E f + min (activityRawOf f) 20 + min (contentRawOf f) 20 +
      engagementOf f + min (diversityRawOf f) 20 + f.verification_penalty * 5 ∧
    (totalPreOf E f ≤ 100 →
      |breakdownSum (computeBotScore100Enhanced E f).2 -
        (computeBotScore100Enhanced E f).1| ≤ 7/200) := by
  refine ⟨?_, ?_, ?_, ?_, ?_, ?_, rfl, rfl, ?_⟩
  · show pyRound 2 (agePenaltyOf E f) ≤ 20
    have h20 : agePenaltyOf E f ≤ ((20:ℤ):ℚ) := by
      unfold agePenaltyOf
      push_cast
      nlinarith [min_le_left (1:ℚ) (E (-f.age_days / 90))]
    exact_mod_cast pyRound2_le_int _ 20 h20
  · show pyRound 2 (min (activityRawOf f) 20) ≤ 20
    exact_mod_cast pyRound2_le_int _ 20 (by exact_mod_cast min_le_right _ _)
  · show pyRound 2 (min (contentRawOf f) 20) ≤ 20
    exact_mod_cast pyRound2_le_int _ 20 (by exact_mod_cast min_le_right _ _)
  · show pyRound 2 (engagementOf f) ≤ 20
    have h20 : engagementOf f ≤ ((20:ℤ):ℚ) := by
      unfold engagementOf
      push_cast
      nlinarith [min_le_right (f.post_to_karma_score * 2) (1:ℚ)]
    exact_mod_cast pyRound2_le_int _ 20 h20
  · show pyRound 2 (min (diversityRawOf f) 20) ≤ 20
    exact_mod_cast pyRound2_le_int _ 20 (by push_cast; exact min_le_right _ _)
  · show pyRound 2 (f.verification_penalty * 5) ≤ 5
    exact_mod_cast pyRound2_le_int _ 5 (by push_cast; nlinarith)
  · intro htp
    have c1 := abs_le.mp (pyRound_close 2 (agePenaltyOf E f))
    have c2 := abs_le.mp (pyRound_close 2 (min (activityRawOf f) 20))
    have c3 := abs_le.mp (pyRound_close 2 (min (contentRawOf f) 20))
    have c4 := abs_le.mp (pyRound_close 2 (engagementOf f))
    have c5 := abs_le.mp (pyRound_close 2 (min (diversityRawOf f) 20))
    have c6 := abs_le.mp (pyRound_close 2 (f.verification_penalty * 5))
    have cs := abs_le.mp (pyRound_close 2 (min (totalPreOf E f) 100))
    have hmin : min (totalPreOf E f) 100 = totalPreOf E f := min_eq_left htp
    rw [hmin] at cs
    have hT : totalPreOf E f = agePenaltyOf E f + min (activityRawOf f) 20 +
        min (contentRawOf f) 20 + engagementOf f + min (diversityRawOf f) 20 +
        f.verification_penalty * 5 := rfl
    show |(pyRound 2 (agePenaltyOf E f) + pyRound 2 (min (activityRawOf f) 20) +
        pyRound 2 (min (contentRawOf f) 20) + pyRound 2 (engagementOf f) +
        pyRound 2 (min (diversityRawOf f) 20) + pyRound 2 (f.verification_penalty * 5)) -
      pyRound 2 (min (totalPreOf E f) 100)| ≤ 7/200
    rw [hmin, abs_le]
    constructor <;> linarith [c1.1, c1.2, c2.1, c2.2, c3.1, c3.2, c4.1, c4.2,
      c5.1, c5.2, c6.1, c6.2, cs.1, cs.2]

/-- The feature set witnessing the rounding mismatch in C4 (all fields
within the documented [0,1] feature ranges; the scorer accepts any such
feature dict). -/
def featRound : FeatureSet :=
  { featBase with username_suspicious_score := 3/5000, duplicate_content_score := 1/5000 }

theorem featRound_buckets :
    agePenaltyOf (fun _ => 1) featRound = 20 ∧
    min (activityRawOf featRound) 20 = 3/1000 ∧
    min (contentRawOf featRound) 20 = 3/1000 ∧
    engagementOf featRound = 0 ∧
    min (diversityRawOf featRound) 20 = 0 ∧
    featRound.verification_penalty * 5 = 0 := by
  refine ⟨?_, ?_, ?_, ?_, ?_, ?_⟩
  · unfold agePenaltyOf
    norm_num [featRound, featBase]
  · have h : activityRawOf featRound = 3/1000 := by
      unfold activityRawOf
      norm_num [featRound, featBase]
    rw [h]
    norm_num [min_eq_left]
  · have h : contentRawOf featRound = 3/1000 := by
      unfold contentRawOf
      norm_num [featRound, featBase]
    rw [h]
    norm_num [min_eq_left]
  · unfold engagementOf
    norm_num [featRound, featBase]
  · have h : diversityRawOf featRound = 0 := by
      unfold diversityRawOf
      norm_num [featRound, featBase]
    rw [h]
    norm_num [min_eq_left]
  · norm_num [featRound, featBase]

/-- C4 counterexample to the claim as stated: for this feature set the
reported total is 20.01 but the breakdown entries sum to 20.00 — the
0.003-point activity and content contributions each round to 0.00 while
their sum pushes the rounded total up by one cent. -/
theorem claim4_counterexample :
    (computeBotScore100Enhanced (fun _ => 1) featRound).1 = 2001/100 ∧
    breakdownSum (computeBotScore100Enhanced (fun _ => 1) featRound).2 = 20 ∧
    breakdownSum (computeBotScore100Enhanced (fun _ => 1) featRound).2 ≠
      (computeBotScore100Enhanced (fun _ => 1) featRound).1 := by
  obtain ⟨b1, b2, b3, b4, b5, b6⟩ := featRound_buckets
  have hT : totalPreOf (fun _ => 1) featRound = 10003/500 := by
    unfold totalPreOf
    rw [b1, b2, b3, b4, b5, b6]
    norm_num
  have hscore : (computeBotScore100Enhanced (fun _ => 1) featRound).1 = 2001/100 := by
    show pyRound 2 (min (totalPreOf (fun _ => 1) featRound) 100) = 2001/100
    rw [hT, min_eq_left (by norm_num)]
    have := pyRound2_eval_gt (10003/500) 2000 (by norm_num) (by norm_num) (by norm_num)
    rw [this]
    norm_num
  have hzero : pyRound 2 (0:ℚ) = 0 := by
    exact_mod_cast pyRound_int 2 0
  have h20 : pyRound 2 (20:ℚ) = 20 := by
    exact_mod_cast pyRound_int 2 20
  have hsmall : pyRound 2 (3/1000 : ℚ) = 0 := by
    have := pyRound2_eval_lt (3/1000) 0 (by norm_num) (by norm_num) (by norm_num)
    rw [this]
    norm_num
  have hsum : breakdownSum (computeBotScore100Enhanced (fun _ => 1) featRound).2 = 20 := by
    show pyRound 2 (agePenaltyOf (fun _ => 1) featRound) +
        pyRound 2 (min (activityRawOf featRound) 20) +
        pyRound 2 (min (contentRawOf featRound) 20) +
        pyRound 2 (engagementOf featRound) +
        pyRound 2 (min (diversityRawOf featRound) 20) +
        pyRound 2 (featRound.verification_penalty * 5) = 20
    rw [b1, b2, b3, b4, b5, b6, h20, hsmall, hzero]
    norm_num
  refine ⟨hscore, hsum, ?_⟩
  rw [hscore, hsum]
  norm_num

/-- Witness for C4 (amended) at the baseline feature set, whose pre-clamp
total is 20 ≤ 100. -/
theorem claim4_witness :
    featBase.verification_penalty ≤ 1 ∧
    totalPreOf (fun _ => 1) featBase ≤ 100 ∧
    |breakdownSum (computeBotScore100Enhanced (fun _ => 1) featBase).2 -
      (computeBotScore100Enhanced (fun _ => 1) featBase).1| ≤ 7/200 := by
  have hv : featBase.verification_penalty ≤ 1 := by norm_num [featBase]
  have htp : totalPreOf (fun _ => 1) featBase ≤ 100 := by
    unfold totalPreOf agePenaltyOf activityRawOf contentRawOf engagementOf diversityRawOf
    norm_num [featBase]
  exact ⟨hv, htp, ((claim4_amended (fun _ => 1) featBase hv).2.2.2.2.2.2.2.2) htp⟩

/-! ### Claim C6 -/

theorem four_bins_count (l : List ℚ) :
    l.countP (fun s => decide (s < 30)) + l.countP (fun s => decide (30 ≤ s ∧ s < 50)) +
      l.countP (fun s => decide (50 ≤ s ∧ s < 70)) + l.countP (fun s => decide (70 ≤ s)) =
      l.length := by
  induction l with
  | nil => rfl
  | cons x xs ih =>
    simp only [List.countP_cons, List.length_cons, decide_eq_true_eq]
    rcases lt_or_le x 30 with h1 | h1
    · rw [if_pos h1, if_neg (by rintro ⟨ha, _⟩; linarith),
        if_neg (by rintro ⟨ha, _⟩; linarith), if_neg (by intro ha; linarith)]
      omega
    · rcases lt_or_le x 50 with h2 | h2
      · rw [if_neg (by intro ha; linarith), if_pos ⟨h1, h2⟩,
          if_neg (by rintro ⟨ha, _⟩; linarith), if_neg (by intro ha; linarith)]
        omega
      · rcases lt_or_le x 70 with h3 | h3
        · rw [if_neg (by intro ha; linarith), if_neg (by rintro ⟨_, hb⟩; linarith),
            if_pos ⟨h2, h3⟩, if_neg (by intro ha; linarith)]
          omega
        · rw [if_neg (by intro ha; linarith), if_neg (by rintro ⟨_, hb⟩; linarith),
            if_neg (by rintro ⟨_, hb⟩; linarith), if_pos h3]
          omega

/-- C6 (amended): the batch analyzer returns exactly one result entry
per requested account, each a full classification or an explicit error
entry; WHEN at least one account scores successfully, the statistics
block is present, accounts for all n inputs
(successful + failed = total = n), aggregates (mean, median, min, max)
only over the successfully scored accounts, and its per-category counts
partition the successful ones.  When every account fails, the source
returns the per-account results with NO statistics block. -/
theorem claim6_amended (E : ℚ → ℚ) (inputs : List (String × Except String UserData))
    (now : ℚ) :
    (analyzeMultipleUsers E inputs now).results.length = inputs.length ∧
    (∀ r ∈ (analyzeMultipleUsers E inputs now).results,
      (∃ s, r = AnalysisResult.success s) ∨ ∃ u e, r = AnalysisResult.failure u e) ∧
    (((analyzeMultipleUsers E inputs now).results.filterMap botScoreOf).isEmpty →
      (analyzeMultipleUsers E inputs now).statistics = none) ∧
    (¬ ((analyzeMultipleUsers E inputs now).results.filterMap botScoreOf).isEmpty →
      ∃ st, (analyzeMultipleUsers E inputs now).statistics = some st ∧
        st.total_analyzed = inputs.length ∧
        st.successful_analyses =
          ((analyzeMultipleUsers E inputs now).results.filterMap botScoreOf).length ∧
        st.successful_analyses + st.failed_analyses = st.total_analyzed ∧
        st.average_bot_score =
          pyRound 2 (npMean ((analyzeMultipleUsers E inputs now).results.filterMap botScoreOf)) ∧
        st.median_bot_score =
          pyRound 2 (npMedian ((analyzeMultipleUsers E inputs now).results.filterMap botScoreOf)) ∧
        st.min_bot_score =
          pyRound 2 (listMinQ ((analyzeMultipleUsers E inputs now).results.filterMap botScoreOf)) ∧
        st.max_bot_score =
          pyRound 2 (listMaxQ ((analyzeMultipleUsers E inputs now).results.filterMap botScoreOf)) ∧
        st.likely_humans + st.suspicious + st.likely_bots + st.almost_certain_bots =
          st.successful_analyses) := by
  have hres : (analyzeMultipleUsers E inputs now).results =
      inputs.map (fun p => analyzeUserComprehensive E p.1 p.2 now) := rfl
  have hlen : (analyzeMultipleUsers E inputs now).results.length = inputs.length := by
    rw [hres, List.length_map]
  refine ⟨hlen, ?_, ?_, ?_⟩
  · intro r _
    cases r with
    | success s => exact Or.inl ⟨s, rfl⟩
    | failure u e => exact Or.inr ⟨u, e, rfl⟩
  · intro h
    rw [hres] at h
    show (if ((inputs.map (fun p => analyzeUserComprehensive E p.1 p.2 now)).filterMap
        botScoreOf).isEmpty then none else _) = none
    rw [if_pos h]
  · intro h
    have hvalid : ((inputs.map (fun p => analyzeUserComprehensive E p.1 p.2 now)).filterMap
        botScoreOf).length ≤ inputs.length := by
      calc ((inputs.map (fun p => analyzeUserComprehensive E p.1 p.2 now)).filterMap
            botScoreOf).length
          ≤ (inputs.map (fun p => analyzeUserComprehensive E p.1 p.2 now)).length :=
            List.length_filterMap_le _ _
        _ = inputs.length := List.length_map _ _
    rw [hres] at h
    have hsome : (analyzeMultipleUsers E inputs now).statistics = some
        { total_analyzed := inputs.length
          successful_analyses := ((inputs.map (fun p => analyzeUserComprehensive E p.1 p.2 now)).filterMap botScoreOf).length
          failed_analyses := inputs.length -
            ((inputs.map (fun p => analyzeUserComprehensive E p.1 p.2 now)).filterMap botScoreOf).length
          average_bot_score := pyRound 2 (npMean ((inputs.map (fun p => analyzeUserComprehensive E p.1 p.2 now)).filterMap botScoreOf))
          median_bot_score := pyRound 2 (npMedian ((inputs.map (fun p => analyzeUserComprehensive E p.1 p.2 now)).filterMap botScoreOf))
          min_bot_score := pyRound 2 (listMinQ ((inputs.map (fun p => analyzeUserComprehensive E p.1 p.2 now)).filterMap botScoreOf))
          max_bot_score := pyRound 2 (listMaxQ ((inputs.map (fun p => analyzeUserComprehensive E p.1 p.2 now)).filterMap botScoreOf))
          likely_humans := ((inputs.map (fun p => analyzeUserComprehensive E p.1 p.2 now)).filterMap botScoreOf).countP (fun s => decide (s < 30))
          suspicious := ((inputs.map (fun p => analyzeUserComprehensive E p.1 p.2 now)).filterMap botScoreOf).countP (fun s => decide (30 ≤ s ∧ s < 50))
          likely_bots := ((inputs.map (fun p => analyzeUserComprehensive E p.1 p.2 now)).filterMap botScoreOf).countP (fun s => decide (50 ≤ s ∧ s < 70))
          almost_certain_bots := ((inputs.map (fun p => analyzeUserComprehensive E p.1 p.2 now)).filterMap botScoreOf).countP (fun s => decide (70 ≤ s)) } := by
      show (if ((inputs.map (fun p => analyzeUserComprehensive E p.1 p.2 now)).filterMap
          botScoreOf).isEmpty then none else _) = _
      rw [if_neg h]
    refine ⟨_, hsome, rfl, rfl, ?_, rfl, rfl, rfl, rfl, four_bins_count _⟩
    show ((inputs.map (fun p => analyzeUserComprehensive E p.1 p.2 now)).filterMap
        botScoreOf).length + (inputs.length -
      ((inputs.map (fun p => analyzeUserComprehensive E p.1 p.2 now)).filterMap
        botScoreOf).length) = inputs.length
    omega

/-- C6 counterexample to the claim as stated: when every requested
account fails (here a batch of one unresolvable account), the source
returns only the per-account results and NO statistics block at all, so
no aggregate accounts for the inputs (`successful/failed/total` are
absent), while the results list still has one explicit error entry. -/
theorem claim6_counterexample :
    (analyzeMultipleUsers (fun _ => 1) [("ghost", Except.error "user not found")]
      0).results = [AnalysisResult.failure "ghost" "user not found"] ∧
    (analyzeMultipleUsers (fun _ => 1) [("ghost", Except.error "user not found")]
      0).statistics = none :=
  ⟨rfl, rfl⟩

/-- Witness for C6 (amended) on a two-account batch with one success and
one failure. -/
theorem claim6_witness :
    ¬ ((analyzeMultipleUsers (fun _ => 1)
        [("alice", Except.ok userBenign), ("ghost", Except.error "user not found")]
          0).results.filterMap botScoreOf).isEmpty ∧
    ∃ st, (analyzeMultipleUsers (fun _ => 1)
        [("alice", Except.ok userBenign), ("ghost", Except.error "user not found")]
          0).statistics = some st ∧
      st.total_analyzed = 2 ∧ st.successful_analyses = 1 ∧ st.failed_analyses = 1 ∧
      st.successful_analyses + st.failed_analyses = st.total_analyzed := by
  have h : ¬ ((analyzeMultipleUsers (fun _ => 1)
      [("alice", Except.ok userBenign), ("ghost", Except.error "user not found")]
        0).results.filterMap botScoreOf).isEmpty := by decide
  obtain ⟨st, hsome, ht, hs, hsf, _, _, _, _, _⟩ :=
    (claim6_amended (fun _ => 1)
      [("alice", Except.ok userBenign), ("ghost", Except.error "user not found")] 0).2.2.2 h
  have hvl : ((analyzeMultipleUsers (fun _ => 1)
      [("alice", Except.ok userBenign), ("ghost", Except.error "user not found")]
        0).results.filterMap botScoreOf).length = 1 := by decide
  have h2 : st.total_analyzed = 2 := ht
  have h1 : st.successful_analyses = 1 := hs.trans hvl
  refine ⟨h, st, hsome, h2, h1, by omega, hsf⟩
